import Mathlib

/-!
# SkyScout weather app: favourites store and home-location controller

A shallow embedding of `src/App.jsx`.

* JavaScript numbers are rationals (every finite double is one); `NaN` and the
  infinities are left out.
* An `async` function is cut at its `await`s. What the awaited network call
  yields is an input of the step that resumes the function, together with the
  reading of the clock at that moment.
* React state (`useState`) and refs (`useRef`) are fields of a record; a
  functional update `setFavs(prev => ...)` acts on the field as it is when the
  step runs. An event handler reads the state of the render it was created in,
  which here is the state at the moment of the event.
* `String.prototype.toLowerCase` is a parameter of the store: the theorems hold
  for every lower-casing function.
-/

namespace SkyScout

/-! ## JavaScript values -/

/-- JavaScript values that reach the modelled code. -/
inductive JsVal where
  | undefined
  | null
  | bool (b : Bool)
  | num (q : ℚ)
  | str (s : String)
  deriving DecidableEq

/-- A thrown value, seen through `e.name` and `e.message`. -/
structure JsError where
  name : String
  message : String
  deriving DecidableEq

/-- The reading of the device clock when a continuation runs: `Date.now()` and
the local `getHours()` / `getMinutes()` of `new Date()`. -/
structure Clock where
  now : Nat
  hours : Nat
  minutes : Nat
  deriving DecidableEq

/-- The response object `fetch` resolves with; `json` is what awaiting
`res.json()` yields. -/
structure Response (β : Type) where
  ok : Bool
  status : Nat
  json : Except JsError β

/-- What awaiting `fetch(url, { signal })` yields: a rejection or a response. -/
abbrev Fetched (β : Type) := Except JsError (Response β)

/-- `String(n).padStart(width, "0")` for a non-negative integer `n`. -/
def padStart0 (width : Nat) (n : Nat) : String :=
  let d := toString n
  String.mk (List.replicate (width - d.length) '0') ++ d

/-- `Math.round`: the nearest integer, the larger one on a tie. -/
def mathRound (t : ℚ) : ℚ := ((Rat.floor (t + 1 / 2) : ℤ) : ℚ)

/-- `x.toFixed(3)` for `|x| < 10^21` (coordinates are degrees): the sign, then
the integer `n` nearest to `|x| * 1000` (the larger on a tie) written with a dot
before its last three digits. -/
def toFixed3 (x : ℚ) : String :=
  let n : Nat := (Rat.floor (|x| * 1000 + 1 / 2)).toNat
  (if x < 0 then "-" else "") ++ toString (n / 1000) ++ "." ++ padStart0 3 (n % 1000)

/-- The code points `String.prototype.trim` strips: WhiteSpace and
LineTerminator of the ECMAScript grammar. -/
def isJsWhiteSpace (c : Char) : Bool :=
  let n := c.toNat
  n = 0x09 || n = 0x0A || n = 0x0B || n = 0x0C || n = 0x0D || n = 0x20 || n = 0xA0 ||
  n = 0x1680 || (0x2000 ≤ n && n ≤ 0x200A) || n = 0x2028 || n = 0x2029 || n = 0x202F ||
  n = 0x205F || n = 0x3000 || n = 0xFEFF

/-- `rawName.trim()`. -/
def trim (s : String) : String :=
  String.mk ((s.data.dropWhile isJsWhiteSpace).reverse.dropWhile isJsWhiteSpace).reverse

/-- Lower-casing of the ASCII letters, the instance of `toLowerCase` used on
concrete inputs. -/
def asciiLower (s : String) : String := String.mk (s.data.map Char.toLower)

/-! ## Helpers (App.jsx 29-80) -/

/-- `codeToSummary` (App.jsx 29-37). `===` and `Array.prototype.includes` compare
a number with a number by value and never equate values of different types. -/
def codeToSummary (code : JsVal) : String :=
  if code = .num 0 then "Clear"
  else if [JsVal.num 1, .num 2, .num 3].contains code then "Partly cloudy"
  else if [JsVal.num 45, .num 48].contains code then "Fog"
  else if [JsVal.num 51, .num 53, .num 55, .num 61, .num 63, .num 65, .num 80, .num 81,
      .num 82].contains code then "Rain"
  else if [JsVal.num 71, .num 73, .num 75, .num 85, .num 86].contains code then "Snow"
  else if [JsVal.num 95, .num 96, .num 99].contains code then "Thunderstorm"
  else "Cloudy"

/-- `timeHHMM` (App.jsx 39-44). -/
def timeHHMM (c : Clock) : String :=
  padStart0 2 c.hours ++ ":" ++ padStart0 2 c.minutes

/-- The fields of the weather body the code reads: `data?.current?.temperature_2m`
and `data?.current?.weather_code`, `undefined` when absent. -/
structure WeatherData where
  temperature_2m : JsVal
  weather_code : JsVal

/-- The object `fetchCurrentWeather` resolves with. -/
structure WeatherResult where
  temp : JsVal
  weather : String
  updatedAt : String
  deriving DecidableEq

/-- `fetchCurrentWeather` (App.jsx 46-65), from the point where `fetch` settles.
The latitude and longitude only build the URL. -/
def fetchCurrentWeather (fetched : Fetched WeatherData) (clock : Clock) :
    Except JsError WeatherResult :=
  match fetched with
  | .error e => .error e
  | .ok res =>
    if !res.ok then
      .error ⟨"Error", "Weather request failed (" ++ toString res.status ++ ")"⟩
    else
      match res.json with
      | .error e => .error e
      | .ok data =>
        .ok {
          temp := match data.temperature_2m with
            | .num t => .num (mathRound t)
            | _ => .str "--"
          weather := codeToSummary data.weather_code
          updatedAt := timeHHMM clock }

/-- The first match of the geocoding body, `data?.results?.[0]`. -/
structure GeoMatch where
  latitude : ℚ
  longitude : ℚ
  name : String

/-- The object `cityToCoords` resolves with. -/
structure CityCoords where
  latitude : ℚ
  longitude : ℚ
  label : String

/-- `cityToCoords` (App.jsx 67-80), from the point where `fetch` settles; the
body is its first match, `none` when `results` is absent or empty. -/
def cityToCoords (fetched : Fetched (Option GeoMatch)) : Except JsError CityCoords :=
  match fetched with
  | .error e => .error e
  | .ok res =>
    if !res.ok then
      .error ⟨"Error", "City lookup failed (" ++ toString res.status ++ ")"⟩
    else
      match res.json with
      | .error e => .error e
      | .ok none => .error ⟨"Error", "City not found"⟩
      | .ok (some r) => .ok { latitude := r.latitude, longitude := r.longitude, label := r.name }

/-! ## Favourites store (App.jsx 155-157, 205-292, 395-396) -/

/-- One element of the `favs` array. `latitude` / `longitude` are `none` for
`null`; `temp` is a number or the string "--"; `updatedAt` and `error` are
`none` for `null`. -/
structure Fav where
  id : String
  label : String
  latitude : Option ℚ
  longitude : Option ℚ
  temp : JsVal
  weather : String
  updatedAt : Option String
  error : Option String
  deriving DecidableEq

/-- An activation of an `async` function of the store, by the `await` it is
suspended at; `done` once it has returned. -/
inductive Call where
  | addAwaitingCoords (cityName : String)
  | addAwaitingWeather (id : String) (cityName : String)
  | refreshAwaitingWeather (id : String)
  | done
  deriving DecidableEq

/-- An outbound HTTP request. -/
inductive Request where
  | geocode (cityName : String)
  | weather (latitude longitude : ℚ)
  deriving DecidableEq

/-- The state of the store: the two `useState` cells `favs` and `query`, the
activations of `addFavourite` / `refreshFavourite` in the order they were
started, and the requests sent so far, oldest first. -/
structure Store where
  favs : List Fav
  query : String
  calls : List Call
  requests : List Request
  deriving DecidableEq

/-- The store when the component mounts. -/
def Store.init : Store := { favs := [], query := "", calls := [], requests := [] }

/-- The test of App.jsx 209:
`favs.some((f) => f.label.toLowerCase() === cityName.toLowerCase())`. -/
def labelExists (toLowerCase : String → String) (favs : List Fav) (cityName : String) : Bool :=
  favs.any (fun f => toLowerCase f.label == toLowerCase cityName)

/-- The entry inserted at App.jsx 221-233 once the city is resolved. -/
def loadingEntry (r : CityCoords) (clock : Clock) : Fav :=
  { id := r.label ++ "-" ++ toString clock.now
    label := r.label
    latitude := some r.latitude
    longitude := some r.longitude
    temp := .str "--"
    weather := "Loading..."
    updatedAt := none
    error := none }

/-- The text of App.jsx 255. -/
def lookupErrorMessage : String :=
  "Couldn’t look up this city (web may block by CORS). Try on iPhone or use a preset."

/-- The entry inserted by the `catch` of `addFavourite` (App.jsx 244-258). -/
def errorEntry (cityName : String) (clock : Clock) : Fav :=
  { id := "error-" ++ toString clock.now
    label := cityName
    latitude := none
    longitude := none
    temp := .str "--"
    weather := "Unknown"
    updatedAt := none
    error := some lookupErrorMessage }

/-- The write-back of a weather result by id (App.jsx 236-240 and 276-280). -/
def writeWeather (id : String) (w : WeatherResult) (favs : List Fav) : List Fav :=
  favs.map fun f =>
    if f.id = id then { f with temp := w.temp, weather := w.weather, updatedAt := some w.updatedAt }
    else f

/-- The update of App.jsx 268-272 that puts an entry back to loading. -/
def writeLoading (id : String) (favs : List Fav) : List Fav :=
  favs.map fun f =>
    if f.id = id then { f with temp := .str "--", weather := "Loading...", error := none }
    else f

/-- The update of the `catch` of `refreshFavourite` (App.jsx 282-286). -/
def writeFailure (id : String) (e : JsError) (favs : List Fav) : List Fav :=
  favs.map fun f =>
    if f.id = id then { f with temp := .str "--", weather := "Unknown", error := some e.message }
    else f

/-- `addFavourite` up to its first `await` (App.jsx 205-218). -/
def addFavourite (toLowerCase : String → String) (s : Store) (rawName : String) : Store :=
  let cityName := trim rawName
  if cityName = "" then s
  else if labelExists toLowerCase s.favs cityName then { s with query := "" }
  else
    { s with
      calls := s.calls ++ [.addAwaitingCoords cityName]
      requests := s.requests ++ [.geocode cityName] }

/-- The `catch` block of `addFavourite` (App.jsx 243-259), which ends activation
`n`. It covers both awaits of the `try`. -/
def addFavouriteCatch (s : Store) (n : Nat) (cityName : String) (clock : Clock) : Store :=
  { s with
    favs := errorEntry cityName clock :: s.favs
    calls := s.calls.set n .done }

/-- `addFavourite` from `await cityToCoords` to `await fetchCurrentWeather`
(App.jsx 218-235). -/
def addFavouriteCoords (s : Store) (n : Nat) (cityName : String)
    (fetched : Fetched (Option GeoMatch)) (clock : Clock) : Store :=
  match cityToCoords fetched with
  | .ok r =>
    { s with
      favs := loadingEntry r clock :: s.favs
      calls := s.calls.set n (.addAwaitingWeather (loadingEntry r clock).id cityName)
      requests := s.requests ++ [.weather r.latitude r.longitude] }
  | .error _ => addFavouriteCatch s n cityName clock

/-- `addFavourite` from `await fetchCurrentWeather` to its end (App.jsx 235-242). -/
def addFavouriteWeather (s : Store) (n : Nat) (id cityName : String)
    (fetched : Fetched WeatherData) (clock : Clock) : Store :=
  match fetchCurrentWeather fetched clock with
  | .ok w =>
    { s with
      favs := writeWeather id w s.favs
      query := ""
      calls := s.calls.set n .done }
  | .error _ => addFavouriteCatch s n cityName clock

/-- `refreshFavourite` up to its `await` (App.jsx 262-275). `fav.latitude == null`
holds for `null` and `undefined`. -/
def refreshFavourite (s : Store) (id : String) : Store :=
  match s.favs.find? (fun f => f.id == id) with
  | none => s
  | some fav =>
    match fav.latitude, fav.longitude with
    | some lat, some lon =>
      { s with
        favs := writeLoading id s.favs
        calls := s.calls ++ [.refreshAwaitingWeather id]
        requests := s.requests ++ [.weather lat lon] }
    | _, _ => s

/-- `refreshFavourite` from its `await` to its end (App.jsx 275-287). -/
def refreshFavouriteWeather (s : Store) (n : Nat) (id : String)
    (fetched : Fetched WeatherData) (clock : Clock) : Store :=
  match fetchCurrentWeather fetched clock with
  | .ok w => { s with favs := writeWeather id w s.favs, calls := s.calls.set n .done }
  | .error e => { s with favs := writeFailure id e s.favs, calls := s.calls.set n .done }

/-- `removeFavourite` (App.jsx 290-292). -/
def removeFavourite (s : Store) (id : String) : Store :=
  { s with favs := s.favs.filter (fun f => f.id != id) }

/-- What can happen to the store: a user intent, or the settling of the request
activation `call` is waiting for. -/
inductive Event where
  | add (rawName : String)
  | refresh (id : String)
  | remove (id : String)
  | dragEnd (data : List Fav)
  | changeText (text : String)
  | coordsSettled (call : Nat) (fetched : Fetched (Option GeoMatch)) (clock : Clock)
  | weatherSettled (call : Nat) (fetched : Fetched WeatherData) (clock : Clock)

/-- One step of the store. A settling that no activation is waiting for changes
nothing. -/
def step (toLowerCase : String → String) (s : Store) : Event → Store
  | .add rawName => addFavourite toLowerCase s rawName
  | .refresh id => refreshFavourite s id
  | .remove id => removeFavourite s id
  | .dragEnd data => { s with favs := data }
  | .changeText text => { s with query := text }
  | .coordsSettled n fetched clock =>
    match s.calls.get? n with
    | some (.addAwaitingCoords cityName) => addFavouriteCoords s n cityName fetched clock
    | _ => s
  | .weatherSettled n fetched clock =>
    match s.calls.get? n with
    | some (.addAwaitingWeather id cityName) => addFavouriteWeather s n id cityName fetched clock
    | some (.refreshAwaitingWeather id) => refreshFavouriteWeather s n id fetched clock
    | _ => s

/-- The store after a sequence of events. -/
def run (toLowerCase : String → String) (s : Store) (events : List Event) : Store :=
  events.foldl (step toLowerCase) s

/-- One call of add run to its end with nothing in between: the call, the
settling of its geocoding request, and the settling of its weather request
(which finds no waiting activation when the call has ended before). -/
def addCompleted (toLowerCase : String → String) (s : Store) (rawName : String)
    (geo : Fetched (Option GeoMatch)) (geoClock : Clock)
    (weather : Fetched WeatherData) (weatherClock : Clock) : Store :=
  run toLowerCase s
    [.add rawName, .coordsSettled s.calls.length geo geoClock,
     .weatherSettled s.calls.length weather weatherClock]

/-- The number of entries whose label is `cityName` up to case. -/
def labelCount (toLowerCase : String → String) (favs : List Fav) (cityName : String) : Nat :=
  favs.countP (fun f => toLowerCase f.label == toLowerCase cityName)

/-! ## Home-location controller (App.jsx 147-201) -/

/-- The argument of `onCoordsChange`. -/
structure Coords where
  latitude : ℚ
  longitude : ℚ
  deriving DecidableEq

/-- The key of App.jsx 170. -/
def coordsKey (c : Coords) : String :=
  toFixed3 c.latitude ++ "," ++ toFixed3 c.longitude

/-- One weather request of the home effect with its `AbortController`:
`aborted` once `controller.abort()` ran, `settled` once the awaiting code has
resumed. -/
structure HomeFetch where
  latitude : ℚ
  longitude : ℚ
  aborted : Bool
  settled : Bool
  deriving DecidableEq

/-- The home slot: the `useState` cells, the ref `lastMyFetchKeyRef`, the
cleanup the last run of the effect returned (`some i` for
`() => controller.abort()` of request `i`, `none` when the run returned
nothing), and the requests issued so far, oldest first. -/
structure Home where
  coords : Option Coords
  myTemp : JsVal
  myWeather : String
  myUpdatedAt : Option String
  myError : Option String
  lastMyFetchKeyRef : Option String
  cleanup : Option Nat
  fetches : List HomeFetch
  deriving DecidableEq

/-- The home slot after the first render: the initial values of App.jsx 149-159;
the effect has run once with `coords = null` and returned at line 168. -/
def Home.init : Home :=
  { coords := none
    myTemp := .str "--"
    myWeather := "Loading..."
    myUpdatedAt := none
    myError := none
    lastMyFetchKeyRef := none
    cleanup := none
    fetches := [] }

/-- The fields of the home slot the card displays: weather, temperature,
time of update and error. -/
def Home.shown (h : Home) : String × JsVal × Option String × Option String :=
  (h.myWeather, h.myTemp, h.myUpdatedAt, h.myError)

/-- Running the cleanup of the previous run of the effect (App.jsx 200). -/
def runCleanup (h : Home) : Home :=
  match h.cleanup with
  | none => h
  | some i =>
    { h with
      fetches := h.fetches.modify (fun f => { f with aborted := true }) i
      cleanup := none }

/-- The body of the effect (App.jsx 167-201) up to the `await`, for the current
`coords`. -/
def homeEffect (h : Home) : Home :=
  match h.coords with
  | none => { h with cleanup := none }
  | some c =>
    if h.lastMyFetchKeyRef = some (coordsKey c) then { h with cleanup := none }
    else
      { h with
        lastMyFetchKeyRef := some (coordsKey c)
        myError := none
        myWeather := "Loading..."
        myTemp := .str "--"
        myUpdatedAt := none
        cleanup := some h.fetches.length
        fetches := h.fetches ++
          [{ latitude := c.latitude, longitude := c.longitude, aborted := false, settled := false }] }

/-- `onCoordsChange` (App.jsx 162-165) and the render it causes: `setCoords`
stores a fresh object, so the dependency `[coords]` has changed; React runs the
cleanup of the previous run of the effect and then the effect. -/
def onCoordsChange (h : Home) (c : Coords) : Home :=
  homeEffect { runCleanup h with coords := some c }

/-- What `fetch` rejects with once its signal is aborted. -/
def abortError : JsError := ⟨"AbortError", "Aborted"⟩

/-- The effect's `async` body from the `await` to its end (App.jsx 183-197) for
request `i`. A request whose signal was aborted rejects with the abort error,
whatever the network did. -/
def homeFetchSettled (h : Home) (i : Nat) (fetched : Fetched WeatherData) (clock : Clock) :
    Home :=
  match h.fetches.get? i with
  | none => h
  | some f =>
    if f.settled then h
    else
      let h1 := { h with fetches := h.fetches.modify (fun f => { f with settled := true }) i }
      match fetchCurrentWeather (if f.aborted then .error abortError else fetched) clock with
      | .ok w => { h1 with myWeather := w.weather, myTemp := w.temp, myUpdatedAt := some w.updatedAt }
      | .error e =>
        if e.name = "AbortError" then h1
        else
          { h1 with
            myError := some e.message
            myWeather := "Unknown"
            myTemp := .str "--"
            myUpdatedAt := none }

/-- What can happen to the home slot. -/
inductive HomeEvent where
  | coordsChange (c : Coords)
  | fetchSettled (i : Nat) (fetched : Fetched WeatherData) (clock : Clock)

/-- One step of the home slot. -/
def homeStep (h : Home) : HomeEvent → Home
  | .coordsChange c => onCoordsChange h c
  | .fetchSettled i fetched clock => homeFetchSettled h i fetched clock

/-- The home slot after a sequence of events. -/
def homeRun (h : Home) (events : List HomeEvent) : Home :=
  events.foldl homeStep h

/-- The keys of the coordinates resolved in a sequence of events, in order. -/
def resolvedKeys : List HomeEvent → List String
  | [] => []
  | .coordsChange c :: events => coordsKey c :: resolvedKeys events
  | .fetchSettled _ _ _ :: events => resolvedKeys events

/-- The number of changes of the key along a sequence of keys, starting from
`last` (`none` before the first key is set). -/
def keyChanges (last : Option String) : List String → Nat
  | [] => 0
  | k :: ks => (if last = some k then 0 else 1) + keyChanges (some k) ks

/-! ## Id stamps -/

/-- The value of a list of decimal digit characters. -/
def digitsValue (cs : List Char) : Nat :=
  cs.foldl (fun acc c => 10 * acc + (c.toNat - 48)) 0

/-- The number written after the last "-" of an id. -/
def stampOf (id : String) : Nat :=
  digitsValue (id.data.reverse.takeWhile (fun c => c != '-')).reverse

/-- The ids of a list are pairwise different and their stamps are below `bound`. -/
def IdsBelow (bound : Nat) (favs : List Fav) : Prop :=
  (favs.map (fun f => f.id)).Nodup ∧ ∀ f ∈ favs, stampOf f.id < bound

/-- A sequence of events in which every settling reads a clock value that is at
least `bound` and above that of every settling before it, and every drag hands
back a permutation of the list. -/
def WellTimed (toLowerCase : String → String) : Nat → Store → List Event → Prop
  | _, _, [] => True
  | b, s, .add rawName :: es => WellTimed toLowerCase b (step toLowerCase s (.add rawName)) es
  | b, s, .refresh id :: es => WellTimed toLowerCase b (step toLowerCase s (.refresh id)) es
  | b, s, .remove id :: es => WellTimed toLowerCase b (step toLowerCase s (.remove id)) es
  | b, s, .changeText text :: es =>
    WellTimed toLowerCase b (step toLowerCase s (.changeText text)) es
  | b, s, .dragEnd data :: es =>
    data.Perm s.favs ∧ WellTimed toLowerCase b (step toLowerCase s (.dragEnd data)) es
  | b, s, .coordsSettled n fetched clock :: es =>
    b ≤ clock.now ∧
      WellTimed toLowerCase (clock.now + 1) (step toLowerCase s (.coordsSettled n fetched clock)) es
  | b, s, .weatherSettled n fetched clock :: es =>
    b ≤ clock.now ∧
      WellTimed toLowerCase (clock.now + 1) (step toLowerCase s (.weatherSettled n fetched clock)) es

/-! ## Rounded coordinates -/

/-- A coordinate rounded to 3 decimal places, in the words of the specification
and not of the code: whether it is negative, and the whole number of thousandths
nearest to its absolute value. A negative value that rounds to zero keeps its
sign, as the numeral "-0.000" does. -/
def rounded3 (x : ℚ) : Bool × Nat := (decide (x < 0), (round (|x| * 1000)).toNat)

/-- The latitude and the longitude of a location, each rounded to 3 decimal
places. -/
def roundedKey (c : Coords) : (Bool × Nat) × (Bool × Nat) :=
  (rounded3 c.latitude, rounded3 c.longitude)

/-- The numeral of a sign and a number of thousandths: the digits of the whole
part, a dot, and three digits. -/
def fixed3 (neg : Bool) (n : Nat) : String :=
  (if neg then "-" else "") ++ toString (n / 1000) ++ "." ++ padStart0 3 (n % 1000)

/-- The coordinates resolved in a sequence of events, in order. -/
def resolvedCoords : List HomeEvent → List Coords
  | [] => []
  | .coordsChange c :: events => c :: resolvedCoords events
  | .fetchSettled _ _ _ :: events => resolvedCoords events

/-- The number of places of a sequence where the value differs from the one
before it, starting from `last` (`none` before the first value). -/
def changes {α : Type} [DecidableEq α] (last : Option α) : List α → Nat
  | [] => 0
  | a :: as => (if last = some a then 0 else 1) + changes (some a) as

/-- The home slot `h` as a callback leaves it when it issues no fetch: `coords`
replaced, the cleanup gone, and the request `i` the cleanup named marked as
aborted. -/
def withoutCleanup (h : Home) (i : Nat) (co : Option Coords) : Home :=
  { h with
    coords := co
    cleanup := none
    fetches := h.fetches.modify (fun f => { f with aborted := true }) i }

/-! ## Concrete responses -/

/-- A 200 weather response with a numeric temperature and weather code. -/
def weatherOk (t code : ℚ) : Fetched WeatherData :=
  .ok { ok := true, status := 200,
        json := .ok { temperature_2m := .num t, weather_code := .num code } }

/-- A weather response with a non-success status. -/
def weatherStatus (status : Nat) : Fetched WeatherData :=
  .ok { ok := false, status := status, json := .error ⟨"SyntaxError", "Unexpected token"⟩ }

/-- A 200 geocoding response with one match. -/
def geoOk (lat lon : ℚ) (name : String) : Fetched (Option GeoMatch) :=
  .ok { ok := true, status := 200,
        json := .ok (some { latitude := lat, longitude := lon, name := name }) }

/-- A 200 geocoding response with no match. -/
def geoEmpty : Fetched (Option GeoMatch) :=
  .ok { ok := true, status := 200, json := .ok none }

/-- A geocoding response with a non-success status. -/
def geoStatus (status : Nat) : Fetched (Option GeoMatch) :=
  .ok { ok := false, status := status, json := .ok none }

/-! ## Theorems -/

/-- C1: `codeToSummary` is the fixed lookup of the specification: 0 gives "Clear",
1, 2, 3 give "Partly cloudy", 45, 48 give "Fog", 51, 53, 55, 61, 63, 65, 80, 81, 82
give "Rain", 71, 73, 75, 85, 86 give "Snow", 95, 96, 99 give "Thunderstorm", and
every other value, an absent code included, gives "Cloudy"; in particular 61 gives
"Rain", 0 gives "Clear" and 999 gives "Cloudy". -/
theorem codeToSummary_lookup (c : JsVal) :
    (c = .num 0 → codeToSummary c = "Clear") ∧
    (c ∈ [JsVal.num 1, .num 2, .num 3] → codeToSummary c = "Partly cloudy") ∧
    (c ∈ [JsVal.num 45, .num 48] → codeToSummary c = "Fog") ∧
    (c ∈ [JsVal.num 51, .num 53, .num 55, .num 61, .num 63, .num 65, .num 80, .num 81,
        .num 82] → codeToSummary c = "Rain") ∧
    (c ∈ [JsVal.num 71, .num 73, .num 75, .num 85, .num 86] → codeToSummary c = "Snow") ∧
    (c ∈ [JsVal.num 95, .num 96, .num 99] → codeToSummary c = "Thunderstorm") ∧
    (c ∉ [JsVal.num 0, .num 1, .num 2, .num 3, .num 45, .num 48, .num 51, .num 53, .num 55,
        .num 61, .num 63, .num 65, .num 80, .num 81, .num 82, .num 71, .num 73, .num 75,
        .num 85, .num 86, .num 95, .num 96, .num 99] → codeToSummary c = "Cloudy") ∧
    codeToSummary (.num 61) = "Rain" ∧ codeToSummary (.num 0) = "Clear" ∧
    codeToSummary (.num 999) = "Cloudy" ∧ codeToSummary .undefined = "Cloudy" := by
  refine ⟨?_, ?_, ?_, ?_, ?_, ?_, ?_, by decide, by decide, by decide, by decide⟩
  · rintro rfl; decide
  · intro h
    simp only [List.mem_cons, List.mem_singleton, List.not_mem_nil, or_false] at h
    rcases h with rfl | rfl | rfl <;> decide
  · intro h
    simp only [List.mem_cons, List.mem_singleton, List.not_mem_nil, or_false] at h
    rcases h with rfl | rfl <;> decide
  · intro h
    simp only [List.mem_cons, List.mem_singleton, List.not_mem_nil, or_false] at h
    rcases h with rfl | rfl | rfl | rfl | rfl | rfl | rfl | rfl | rfl <;> decide
  · intro h
    simp only [List.mem_cons, List.mem_singleton, List.not_mem_nil, or_false] at h
    rcases h with rfl | rfl | rfl | rfl | rfl <;> decide
  · intro h
    simp only [List.mem_cons, List.mem_singleton, List.not_mem_nil, or_false] at h
    rcases h with rfl | rfl | rfl <;> decide
  · intro h
    simp only [List.mem_cons, List.mem_singleton, List.not_mem_nil, or_false, not_or] at h
    simp [codeToSummary, h]

/-- The lookup at 61 and at the string "0", which is no number. -/
theorem codeToSummary_lookup_witness :
    codeToSummary (.num 61) = "Rain" ∧ codeToSummary (.str "0") = "Cloudy" :=
  ⟨(codeToSummary_lookup (.num 61)).2.2.2.1 (by simp),
   (codeToSummary_lookup (.str "0")).2.2.2.2.2.2.1 (by simp)⟩

/-! ### Home-location controller -/

theorem runCleanup_fetches_length (h : Home) :
    (runCleanup h).fetches.length = h.fetches.length := by
  unfold runCleanup
  split <;> simp

theorem runCleanup_lastKey (h : Home) :
    (runCleanup h).lastMyFetchKeyRef = h.lastMyFetchKeyRef := by
  unfold runCleanup
  split <;> rfl

theorem onCoordsChange_lastKey (h : Home) (c : Coords) :
    (onCoordsChange h c).lastMyFetchKeyRef = some (coordsKey c) := by
  simp only [onCoordsChange, homeEffect]
  split_ifs with hk
  · simpa using hk
  · rfl

theorem onCoordsChange_fetches_length (h : Home) (c : Coords) :
    (onCoordsChange h c).fetches.length =
      h.fetches.length + (if h.lastMyFetchKeyRef = some (coordsKey c) then 0 else 1) := by
  have hl := runCleanup_fetches_length h
  have hk := runCleanup_lastKey h
  simp only [onCoordsChange, homeEffect]
  rw [hk]
  split_ifs <;> simp [hl]

theorem homeFetchSettled_fetches_length (h : Home) (i : Nat) (fetched : Fetched WeatherData)
    (clock : Clock) : (homeFetchSettled h i fetched clock).fetches.length = h.fetches.length := by
  unfold homeFetchSettled
  cases h.fetches.get? i with
  | none => rfl
  | some f =>
    by_cases hs : f.settled = true
    · simp [hs]
    · simp only [hs, if_false]
      generalize fetchCurrentWeather (if f.aborted = true then .error abortError else fetched)
        clock = r
      cases r with
      | ok w => simp
      | error e => by_cases he : e.name = "AbortError" <;> simp [he]

theorem homeFetchSettled_lastKey (h : Home) (i : Nat) (fetched : Fetched WeatherData)
    (clock : Clock) :
    (homeFetchSettled h i fetched clock).lastMyFetchKeyRef = h.lastMyFetchKeyRef := by
  unfold homeFetchSettled
  cases h.fetches.get? i with
  | none => rfl
  | some f =>
    by_cases hs : f.settled = true
    · simp [hs]
    · simp only [hs, if_false]
      generalize fetchCurrentWeather (if f.aborted = true then .error abortError else fetched)
        clock = r
      cases r with
      | ok w => rfl
      | error e => by_cases he : e.name = "AbortError" <;> simp [he]

theorem homeRun_fetches_length (events : List HomeEvent) (h : Home) :
    (homeRun h events).fetches.length =
      h.fetches.length + keyChanges h.lastMyFetchKeyRef (resolvedKeys events) := by
  induction events generalizing h with
  | nil => simp [homeRun, resolvedKeys, keyChanges]
  | cons e events ih =>
    have hstep : homeRun h (e :: events) = homeRun (homeStep h e) events := rfl
    rw [hstep, ih]
    cases e with
    | coordsChange c =>
      simp only [homeStep, resolvedKeys, keyChanges, onCoordsChange_lastKey,
        onCoordsChange_fetches_length]
      omega
    | fetchSettled i fetched clock =>
      simp only [homeStep, resolvedKeys, homeFetchSettled_lastKey,
        homeFetchSettled_fetches_length]

/-- What a callback with the active key does: no fetch is issued and no displayed
field is reset, but the request the previous run of the effect left a cleanup
for is aborted. -/
theorem onCoordsChange_same_key (h : Home) (c : Coords)
    (hkey : h.lastMyFetchKeyRef = some (coordsKey c)) :
    (onCoordsChange h c).shown = h.shown ∧
    (onCoordsChange h c).fetches.length = h.fetches.length ∧
    (onCoordsChange h c).cleanup = none ∧
    (∀ i f, h.cleanup = some i → h.fetches.get? i = some f →
      (onCoordsChange h c).fetches.get? i = some { f with aborted := true }) := by
  have hk : (runCleanup h).lastMyFetchKeyRef = some (coordsKey c) := by
    rw [runCleanup_lastKey, hkey]
  have hown : onCoordsChange h c = { runCleanup h with coords := some c, cleanup := none } := by
    simp only [onCoordsChange, homeEffect, hk, if_true]
  rw [hown]
  refine ⟨?_, ?_, rfl, ?_⟩
  · unfold runCleanup
    cases h.cleanup <;> rfl
  · exact runCleanup_fetches_length h
  · intro i f hi hf
    simp only [runCleanup, hi]
    simp only [List.get?_eq_getElem?] at hf
    simp [List.getElem?_modify, hf]

/-- C3 as stated fails: after (59.911, 10.757) the callback (59.9114, 10.7569) has the
same key; it issues no fetch and resets no displayed field, but the cleanup of
the effect aborts the fetch in flight, so the 200 response that would have shown
"Rain" and 3 degrees at 09:05 is dropped and the slot stays on "Loading...". -/
theorem home_redundant_callback_aborts_fetch :
    coordsKey ⟨59.9114, 10.7569⟩ = coordsKey ⟨59.911, 10.757⟩ ∧
    (homeRun Home.init [.coordsChange ⟨59.911, 10.757⟩]).lastMyFetchKeyRef =
      some (coordsKey ⟨59.911, 10.757⟩) ∧
    (homeRun Home.init [.coordsChange ⟨59.911, 10.757⟩]).fetches =
      [{ latitude := 59.911, longitude := 10.757, aborted := false, settled := false }] ∧
    (homeRun Home.init [.coordsChange ⟨59.911, 10.757⟩,
      .coordsChange ⟨59.9114, 10.7569⟩]).fetches =
      [{ latitude := 59.911, longitude := 10.757, aborted := true, settled := false }] ∧
    (homeRun Home.init [.coordsChange ⟨59.911, 10.757⟩,
      .coordsChange ⟨59.9114, 10.7569⟩]).shown =
      (homeRun Home.init [.coordsChange ⟨59.911, 10.757⟩]).shown ∧
    (homeRun Home.init [.coordsChange ⟨59.911, 10.757⟩,
      .fetchSettled 0 (weatherOk 3.4 61) ⟨0, 9, 5⟩]).shown =
      ("Rain", .num 3, some "09:05", none) ∧
    (homeRun Home.init [.coordsChange ⟨59.911, 10.757⟩, .coordsChange ⟨59.9114, 10.7569⟩,
      .fetchSettled 0 (weatherOk 3.4 61) ⟨0, 9, 5⟩]).shown =
      ("Loading...", .str "--", none, none) := by
  refine ⟨by decide!, by decide!, by decide!, by decide!, by decide!, by decide!, by decide!⟩

/-! ### Favourites store -/

/-- C7: `refresh(id)` is a no-op when no entry has the id or when the entry with the id has
a null latitude or longitude: the store is left as it was, so the list is the
same, no request is sent and no activation is started. -/
theorem refresh_noop (toLowerCase : String → String) (s : Store) (id : String)
    (h : (∀ f ∈ s.favs, f.id ≠ id) ∨
      ∃ f, s.favs.find? (fun f => f.id == id) = some f ∧
        (f.latitude = none ∨ f.longitude = none)) :
    step toLowerCase s (.refresh id) = s ∧
    (step toLowerCase s (.refresh id)).favs = s.favs ∧
    (step toLowerCase s (.refresh id)).requests = s.requests := by
  have key : step toLowerCase s (.refresh id) = s := by
    simp only [step, refreshFavourite]
    rcases h with h | ⟨f, hf, hnull⟩
    · have : s.favs.find? (fun f => f.id == id) = none := by
        rw [List.find?_eq_none]
        intro f hf
        simpa using h f hf
      rw [this]
    · rw [hf]
      rcases hnull with hn | hn
      · simp [hn]
      · cases hlat : f.latitude <;> simp [hn]
  simp [key]

/-- The refresh of the error entry of an empty-handed lookup, and of an id that
no entry has. -/
theorem refresh_noop_witness :
    step asciiLower
        { favs := [errorEntry "Xyzzy" ⟨1000, 9, 5⟩], query := "", calls := [], requests := [] }
        (.refresh "error-1000") =
      { favs := [errorEntry "Xyzzy" ⟨1000, 9, 5⟩], query := "", calls := [], requests := [] } ∧
    step asciiLower
        { favs := [errorEntry "Xyzzy" ⟨1000, 9, 5⟩], query := "", calls := [], requests := [] }
        (.refresh "Oslo-1") =
      { favs := [errorEntry "Xyzzy" ⟨1000, 9, 5⟩], query := "", calls := [], requests := [] } :=
  ⟨(refresh_noop asciiLower _ "error-1000"
      (Or.inr ⟨errorEntry "Xyzzy" ⟨1000, 9, 5⟩, by decide, Or.inl rfl⟩)).1,
   (refresh_noop asciiLower _ "Oslo-1" (Or.inl (by decide))).1⟩

/-- C8: `remove(id)` deletes the entries with the id and nothing else: the list after it
has no entry with the id, its entries are those of the list before with another
id, unchanged and in the same order, it is the list before when no entry had
the id, and the rest of the store is untouched. -/
theorem remove_spec (toLowerCase : String → String) (s : Store) (id : String) :
    (∀ f ∈ (step toLowerCase s (.remove id)).favs, f.id ≠ id) ∧
    (∀ f, f.id ≠ id → (f ∈ (step toLowerCase s (.remove id)).favs ↔ f ∈ s.favs)) ∧
    (step toLowerCase s (.remove id)).favs.Sublist s.favs ∧
    (∀ other, other ≠ id →
      (step toLowerCase s (.remove id)).favs.filter (fun f => f.id == other) =
        s.favs.filter (fun f => f.id == other)) ∧
    (step toLowerCase s (.remove id)).favs.filter (fun f => f.id != id) =
      s.favs.filter (fun f => f.id != id) ∧
    ((∀ f ∈ s.favs, f.id ≠ id) → step toLowerCase s (.remove id) = s) ∧
    (step toLowerCase s (.remove id)).query = s.query ∧
    (step toLowerCase s (.remove id)).calls = s.calls ∧
    (step toLowerCase s (.remove id)).requests = s.requests := by
  simp only [step, removeFavourite]
  refine ⟨?_, ?_, List.filter_sublist _, ?_, ?_, ?_, trivial, trivial, trivial⟩
  · intro f hf
    simpa using (List.mem_filter.1 hf).2
  · intro f hne
    simp [List.mem_filter, hne]
  · intro other hne
    rw [List.filter_filter]
    congr 1
    funext f
    by_cases h : f.id = other
    · simp [h, hne]
    · simp [h]
  · simp [List.filter_filter]
  · intro h
    have : s.favs.filter (fun f => f.id != id) = s.favs := by
      rw [List.filter_eq_self]
      intro f hf
      simpa using h f hf
    rw [this]

/-- Removing the middle entry of three: no entry with the id is left and the
entries with another id are kept. -/
theorem remove_spec_witness :
    (∀ f ∈ (step asciiLower
      { favs := [loadingEntry ⟨1, 2, "A"⟩ ⟨1, 0, 0⟩, loadingEntry ⟨3, 4, "B"⟩ ⟨2, 0, 0⟩,
          errorEntry "C" ⟨3, 0, 0⟩], query := "q", calls := [], requests := [] }
      (.remove "B-2")).favs, f.id ≠ "B-2") ∧
    (step asciiLower
      { favs := [loadingEntry ⟨1, 2, "A"⟩ ⟨1, 0, 0⟩, loadingEntry ⟨3, 4, "B"⟩ ⟨2, 0, 0⟩,
          errorEntry "C" ⟨3, 0, 0⟩], query := "q", calls := [], requests := [] }
      (.remove "B-2")).favs.filter (fun f => f.id != "B-2") =
      [loadingEntry ⟨1, 2, "A"⟩ ⟨1, 0, 0⟩, errorEntry "C" ⟨3, 0, 0⟩] :=
  ⟨(remove_spec asciiLower _ "B-2").1,
   (remove_spec asciiLower _ "B-2").2.2.2.2.1.trans (by decide!)⟩

theorem addFavourite_fresh (toLowerCase : String → String) (s : Store) (rawName : String)
    (hne : trim rawName ≠ "") (hnew : labelExists toLowerCase s.favs (trim rawName) = false) :
    step toLowerCase s (.add rawName) =
      { s with
        calls := s.calls ++ [.addAwaitingCoords (trim rawName)]
        requests := s.requests ++ [.geocode (trim rawName)] } := by
  simp [step, addFavourite, hne, hnew]

theorem get?_append_length {α : Type} (xs : List α) (x : α) :
    (xs ++ [x]).get? xs.length = some x := by
  simp

/-- C5 as stated fails: adding "Oslo" to the empty store inserts nothing before the
geocoding response arrives; the call only sends the geocoding request. -/
theorem add_inserts_nothing_synchronously :
    trim "Oslo" ≠ "" ∧ labelExists asciiLower Store.init.favs (trim "Oslo") = false ∧
    (step asciiLower Store.init (.add "Oslo")).favs = [] ∧
    ¬ ∃ f, (step asciiLower Store.init (.add "Oslo")).favs = f :: Store.init.favs := by
  refine ⟨by decide, by decide, by decide, ?_⟩
  rintro ⟨f, hf⟩
  have h0 : (step asciiLower Store.init (.add "Oslo")).favs = [] := by decide
  rw [h0] at hf
  cases hf

/-- C5, amended: for a raw name that is empty after trimming, add changes nothing. For a
raw name that is non-empty after trimming and no duplicate of a label, add
leaves the list as it is and sends the geocoding request; when that request
yields a match, the step resuming the call puts a new entry at the head of the
list as it then is, with the label and coordinates of the match, temp "--",
weather "Loading...", no update time and no error, and the entries that were
there follow in their order. -/
theorem add_inserts_on_resolution (toLowerCase : String → String) (s : Store)
    (rawName : String) :
    (trim rawName = "" → step toLowerCase s (.add rawName) = s) ∧
    (trim rawName ≠ "" → labelExists toLowerCase s.favs (trim rawName) = false →
      (step toLowerCase s (.add rawName)).favs = s.favs ∧
      (step toLowerCase s (.add rawName)).query = s.query ∧
      (step toLowerCase s (.add rawName)).requests = s.requests ++ [.geocode (trim rawName)] ∧
      (step toLowerCase s (.add rawName)).calls.get? s.calls.length =
        some (.addAwaitingCoords (trim rawName))) ∧
    (∀ (t : Store) (n : Nat) (cityName : String) (fetched : Fetched (Option GeoMatch))
        (clock : Clock) (r : CityCoords),
      t.calls.get? n = some (.addAwaitingCoords cityName) → cityToCoords fetched = .ok r →
      (step toLowerCase t (.coordsSettled n fetched clock)).favs =
        { id := r.label ++ "-" ++ toString clock.now, label := r.label,
          latitude := some r.latitude, longitude := some r.longitude, temp := .str "--",
          weather := "Loading...", updatedAt := none, error := none } :: t.favs) := by
  refine ⟨?_, ?_, ?_⟩
  · intro h
    simp [step, addFavourite, h]
  · intro hne hnew
    rw [addFavourite_fresh toLowerCase s rawName hne hnew]
    exact ⟨rfl, rfl, rfl, get?_append_length _ _⟩
  · intro t n cityName fetched clock r hcall hr
    simp only [step, hcall, addFavouriteCoords, hr]
    rfl

/-- Adding "  " changes nothing; adding " Oslo " to the empty store leaves the list
empty, and the match "Oslo" at clock reading 1000 then heads the list. -/
theorem add_inserts_on_resolution_witness :
    step asciiLower Store.init (.add "  ") = Store.init ∧
    (step asciiLower Store.init (.add " Oslo ")).favs = [] ∧
    (step asciiLower (step asciiLower Store.init (.add " Oslo "))
      (.coordsSettled 0 (geoOk 59.91 10.75 "Oslo") ⟨1000, 9, 5⟩)).favs =
      [{ id := "Oslo-1000", label := "Oslo", latitude := some 59.91, longitude := some 10.75,
         temp := .str "--", weather := "Loading...", updatedAt := none, error := none }] :=
  ⟨(add_inserts_on_resolution asciiLower Store.init "  ").1 (by decide),
   ((add_inserts_on_resolution asciiLower Store.init " Oslo ").2.1 (by decide) (by decide)).1,
   ((add_inserts_on_resolution asciiLower Store.init " Oslo ").2.2
      (step asciiLower Store.init (.add " Oslo ")) 0 "Oslo" (geoOk 59.91 10.75 "Oslo")
      ⟨1000, 9, 5⟩ ⟨59.91, 10.75, "Oslo"⟩ (by decide) rfl).trans (by decide!)⟩

theorem cityToCoords_failure (res : Response (Option GeoMatch))
    (hfail : res.ok = false ∨ res.json = .ok none) :
    ∃ e, cityToCoords (.ok res) = .error e := by
  unfold cityToCoords
  cases hok : res.ok with
  | false => exact ⟨_, by simp only [hok]; rfl⟩
  | true =>
    rcases hfail with h | h
    · simp [hok] at h
    · exact ⟨_, by simp only [hok, h]; rfl⟩

theorem refresh_error_entry (toLowerCase : String → String) (s : Store) (cityName : String)
    (clock : Clock) (rest : List Fav) (h : s.favs = errorEntry cityName clock :: rest) :
    step toLowerCase s (.refresh (errorEntry cityName clock).id) = s := by
  simp [step, refreshFavourite, h, errorEntry]

/-- C6: when coordinate resolution fails during add, by a non-success status or by zero
matches, for a trimmed name that is non-empty and no duplicate, the resulting
list is the previous list with one new entry at its head: its label is the
trimmed input, its latitude and longitude are null, its weather is "Unknown"
with temp "--", and its error is the fixed lookup message whatever the cause;
only the geocoding request was sent, and a refresh of that entry changes
nothing. -/
theorem add_lookup_failure (toLowerCase : String → String) (s : Store) (rawName : String)
    (res : Response (Option GeoMatch)) (clock : Clock)
    (hne : trim rawName ≠ "") (hnew : labelExists toLowerCase s.favs (trim rawName) = false)
    (hfail : res.ok = false ∨ res.json = .ok none) :
    (run toLowerCase s [.add rawName, .coordsSettled s.calls.length (.ok res) clock]).favs =
      { id := "error-" ++ toString clock.now, label := trim rawName, latitude := none,
        longitude := none, temp := .str "--", weather := "Unknown", updatedAt := none,
        error := some lookupErrorMessage } :: s.favs ∧
    (run toLowerCase s [.add rawName, .coordsSettled s.calls.length (.ok res) clock]).requests =
      s.requests ++ [.geocode (trim rawName)] ∧
    step toLowerCase
        (run toLowerCase s [.add rawName, .coordsSettled s.calls.length (.ok res) clock])
        (.refresh ("error-" ++ toString clock.now)) =
      run toLowerCase s [.add rawName, .coordsSettled s.calls.length (.ok res) clock] := by
  obtain ⟨e, he⟩ := cityToCoords_failure res hfail
  have hrun : run toLowerCase s [.add rawName, .coordsSettled s.calls.length (.ok res) clock] =
      addFavouriteCatch
        { s with
          calls := s.calls ++ [.addAwaitingCoords (trim rawName)]
          requests := s.requests ++ [.geocode (trim rawName)] }
        s.calls.length (trim rawName) clock := by
    simp only [run, List.foldl_cons, List.foldl_nil]
    rw [addFavourite_fresh toLowerCase s rawName hne hnew]
    simp only [step, get?_append_length, addFavouriteCoords, he]
  rw [hrun]
  refine ⟨rfl, rfl, ?_⟩
  exact refresh_error_entry toLowerCase _ (trim rawName) clock s.favs rfl

/-- The lookup of "Xyzzy" answered with no match, and answered with status 500. -/
theorem add_lookup_failure_witness :
    (run asciiLower Store.init
      [.add " Xyzzy", .coordsSettled 0 geoEmpty ⟨1000, 9, 5⟩]).favs =
      [{ id := "error-1000", label := "Xyzzy", latitude := none, longitude := none,
         temp := .str "--", weather := "Unknown", updatedAt := none,
         error := some lookupErrorMessage }] ∧
    (run asciiLower Store.init
      [.add " Xyzzy", .coordsSettled 0 (geoStatus 500) ⟨1000, 9, 5⟩]).favs =
      [{ id := "error-1000", label := "Xyzzy", latitude := none, longitude := none,
         temp := .str "--", weather := "Unknown", updatedAt := none,
         error := some lookupErrorMessage }] :=
  ⟨(add_lookup_failure asciiLower Store.init " Xyzzy"
      { ok := true, status := 200, json := .ok none } ⟨1000, 9, 5⟩
      (by decide) (by decide) (Or.inr rfl)).1.trans (by decide),
   (add_lookup_failure asciiLower Store.init " Xyzzy"
      { ok := false, status := 500, json := .ok none } ⟨1000, 9, 5⟩
      (by decide) (by decide) (Or.inl rfl)).1.trans (by decide)⟩

theorem get?_set_append_length {α : Type} (xs : List α) (x y : α) :
    ((xs ++ [x]).set xs.length y).get? xs.length = some y := by
  simp

theorem writeWeather_label (id : String) (w : WeatherResult) (favs : List Fav) :
    (writeWeather id w favs).map (fun f => f.label) = favs.map (fun f => f.label) := by
  simp only [writeWeather, List.map_map]
  congr 1
  funext f
  by_cases h : f.id = id <;> simp [h]

theorem labelExists_eq_map (toLowerCase : String → String) (favs : List Fav) (cityName : String) :
    labelExists toLowerCase favs cityName =
      (favs.map (fun f => f.label)).any (fun l => toLowerCase l == toLowerCase cityName) := by
  unfold labelExists
  induction favs with
  | nil => rfl
  | cons f favs ih => simp only [List.any_cons, List.map_cons, ih]

theorem labelCount_eq_map (toLowerCase : String → String) (favs : List Fav) (cityName : String) :
    labelCount toLowerCase favs cityName =
      (favs.map (fun f => f.label)).countP (fun l => toLowerCase l == toLowerCase cityName) := by
  simp [labelCount, List.countP_map, Function.comp_def]

theorem labelCount_eq_zero (toLowerCase : String → String) (favs : List Fav) (cityName : String)
    (h : labelExists toLowerCase favs cityName = false) :
    labelCount toLowerCase favs cityName = 0 := by
  simp only [labelExists, List.any_eq_false] at h
  simp only [labelCount, List.countP_eq_zero]
  exact h

theorem labelExists_congr (toLowerCase : String → String) (favs : List Fav) (a b : String)
    (h : toLowerCase a = toLowerCase b) :
    labelExists toLowerCase favs a = labelExists toLowerCase favs b := by
  simp [labelExists, h]

theorem labelCount_congr (toLowerCase : String → String) (favs : List Fav) (a b : String)
    (h : toLowerCase a = toLowerCase b) :
    labelCount toLowerCase favs a = labelCount toLowerCase favs b := by
  simp [labelCount, h]

theorem addFavourite_existing (toLowerCase : String → String) (s : Store) (rawName : String)
    (hne : trim rawName ≠ "") (hex : labelExists toLowerCase s.favs (trim rawName) = true) :
    step toLowerCase s (.add rawName) = { s with query := "" } := by
  simp [step, addFavourite, hne, hex]

/-- The store after `addCompleted`, by the way the call went. -/
theorem addCompleted_cases (toLowerCase : String → String) (s : Store) (rawName : String)
    (geo : Fetched (Option GeoMatch)) (geoClock : Clock) (weather : Fetched WeatherData)
    (weatherClock : Clock) (hne : trim rawName ≠ "") :
    (labelExists toLowerCase s.favs (trim rawName) = true ∧
      addCompleted toLowerCase s rawName geo geoClock weather weatherClock =
        { s with query := "" }) ∨
    (labelExists toLowerCase s.favs (trim rawName) = false ∧
      ((∃ e, cityToCoords geo = .error e ∧
          (addCompleted toLowerCase s rawName geo geoClock weather weatherClock).favs =
            errorEntry (trim rawName) geoClock :: s.favs) ∨
       (∃ r w, cityToCoords geo = .ok r ∧ fetchCurrentWeather weather weatherClock = .ok w ∧
          (addCompleted toLowerCase s rawName geo geoClock weather weatherClock).favs =
            writeWeather (loadingEntry r geoClock).id w (loadingEntry r geoClock :: s.favs)) ∨
       (∃ r e, cityToCoords geo = .ok r ∧ fetchCurrentWeather weather weatherClock = .error e ∧
          (addCompleted toLowerCase s rawName geo geoClock weather weatherClock).favs =
            errorEntry (trim rawName) weatherClock :: loadingEntry r geoClock :: s.favs))) := by
  cases hex : labelExists toLowerCase s.favs (trim rawName) with
  | true =>
    left
    refine ⟨rfl, ?_⟩
    simp only [addCompleted, run, List.foldl_cons, List.foldl_nil]
    rw [addFavourite_existing toLowerCase s rawName hne hex]
    have hnone : s.calls.get? s.calls.length = none := by simp
    simp only [step, hnone]
  | false =>
    right
    refine ⟨rfl, ?_⟩
    simp only [addCompleted, run, List.foldl_cons, List.foldl_nil]
    rw [addFavourite_fresh toLowerCase s rawName hne hex]
    cases hgeo : cityToCoords geo with
    | error e =>
      left
      refine ⟨e, rfl, ?_⟩
      simp only [step, get?_append_length, addFavouriteCoords, hgeo, addFavouriteCatch,
        get?_set_append_length]
    | ok r =>
      right
      cases hw : fetchCurrentWeather weather weatherClock with
      | ok w =>
        left
        refine ⟨r, w, rfl, rfl, ?_⟩
        simp only [step, get?_append_length, addFavouriteCoords, hgeo,
          get?_set_append_length, addFavouriteWeather, hw]
      | error e =>
        right
        refine ⟨r, e, rfl, rfl, ?_⟩
        simp only [step, get?_append_length, addFavouriteCoords, hgeo,
          get?_set_append_length, addFavouriteWeather, hw, addFavouriteCatch]
/-- C4: adding the same city name twice must leave one entry, and the code breaks this
when the geocoder's label differs from the typed name. The geocoder answers
" roma" with the label "Rome"; the second add of "Roma" finds no label equal to
"roma" up to case, so it is no no-op: it sends a lookup, leaves the pending
input as typed, and on completion the list holds two entries labelled "Rome". -/
theorem add_twice_two_entries :
    asciiLower (trim " roma") = asciiLower (trim "Roma") ∧
    (addCompleted asciiLower Store.init " roma" (geoOk 41.89 12.51 "Rome") ⟨1000, 9, 5⟩
      (weatherOk 20.4 0) ⟨2000, 9, 6⟩).favs.map (fun f => f.label) = ["Rome"] ∧
    (step asciiLower
      (step asciiLower
        (addCompleted asciiLower Store.init " roma" (geoOk 41.89 12.51 "Rome") ⟨1000, 9, 5⟩
          (weatherOk 20.4 0) ⟨2000, 9, 6⟩)
        (.changeText "Roma"))
      (.add "Roma")).query = "Roma" ∧
    (addCompleted asciiLower
      (step asciiLower
        (addCompleted asciiLower Store.init " roma" (geoOk 41.89 12.51 "Rome") ⟨1000, 9, 5⟩
          (weatherOk 20.4 0) ⟨2000, 9, 6⟩)
        (.changeText "Roma"))
      "Roma" (geoOk 41.89 12.51 "Rome") ⟨3000, 9, 7⟩
      (weatherOk 20.4 0) ⟨4000, 9, 8⟩).favs.map (fun f => (f.id, f.label)) =
      [("Rome-3000", "Rome"), ("Rome-1000", "Rome")] := by
  refine ⟨by decide, by decide!, by decide!, by decide!⟩

/-- Where the duplicate test does its work: for two raw names that are non-empty
after trimming and equal up to case, when the label the geocoder returned for
the first, if it returned one, equals the trimmed name up to case, then after
the first add has run to its end the second add does not change the list and
clears the pending input; and when moreover the first name was no duplicate and
its weather fetch, if one was issued, succeeded, the list has exactly one entry
with that label up to case, before and after the second add. -/
theorem add_twice_single_entry (toLowerCase : String → String) (s : Store)
    (raw1 raw2 : String) (geo : Fetched (Option GeoMatch)) (geoClock : Clock)
    (weather : Fetched WeatherData) (weatherClock : Clock)
    (hsame : toLowerCase (trim raw1) = toLowerCase (trim raw2))
    (hne1 : trim raw1 ≠ "") (hne2 : trim raw2 ≠ "")
    (hlabel : ∀ r, cityToCoords geo = .ok r → toLowerCase r.label = toLowerCase (trim raw1)) :
    step toLowerCase (addCompleted toLowerCase s raw1 geo geoClock weather weatherClock)
        (.add raw2) =
      { addCompleted toLowerCase s raw1 geo geoClock weather weatherClock with query := "" } ∧
    (labelExists toLowerCase s.favs (trim raw1) = false →
      (∀ r, cityToCoords geo = .ok r → ∃ w, fetchCurrentWeather weather weatherClock = .ok w) →
      labelCount toLowerCase
        (addCompleted toLowerCase s raw1 geo geoClock weather weatherClock).favs (trim raw2) = 1 ∧
      labelCount toLowerCase
        (step toLowerCase (addCompleted toLowerCase s raw1 geo geoClock weather weatherClock)
          (.add raw2)).favs (trim raw2) = 1) := by
  have hex : labelExists toLowerCase
      (addCompleted toLowerCase s raw1 geo geoClock weather weatherClock).favs (trim raw2)
        = true := by
    rcases addCompleted_cases toLowerCase s raw1 geo geoClock weather weatherClock hne1 with
      ⟨hex, hs1⟩ | ⟨-, ⟨e, -, hf⟩ | ⟨r, w, hgeo, -, hf⟩ | ⟨r, e, -, -, hf⟩⟩
    · rw [hs1, ← labelExists_congr toLowerCase s.favs _ _ hsame]
      exact hex
    · rw [hf]
      simp [labelExists, errorEntry, hsame]
    · rw [hf, labelExists_eq_map, writeWeather_label]
      simp [loadingEntry, hlabel r hgeo, hsame]
    · rw [hf]
      simp [labelExists, errorEntry, hsame]
  have hstep := addFavourite_existing toLowerCase _ raw2 hne2 hex
  refine ⟨hstep, ?_⟩
  intro hnew hweather
  have hcount : labelCount toLowerCase
      (addCompleted toLowerCase s raw1 geo geoClock weather weatherClock).favs (trim raw2)
        = 1 := by
    have hzero := labelCount_eq_zero toLowerCase s.favs (trim raw1) hnew
    rw [labelCount_congr toLowerCase s.favs _ _ hsame] at hzero
    rcases addCompleted_cases toLowerCase s raw1 geo geoClock weather weatherClock hne1 with
      ⟨hex1, -⟩ | ⟨-, ⟨e, -, hf⟩ | ⟨r, w, hgeo, -, hf⟩ | ⟨r, e, hgeo, hw, -⟩⟩
    · rw [hnew] at hex1
      cases hex1
    · rw [hf]
      unfold labelCount at hzero ⊢
      rw [List.countP_cons, hzero]
      simp [errorEntry, hsame]
    · rw [hf, labelCount_eq_map, writeWeather_label, ← labelCount_eq_map]
      unfold labelCount at hzero ⊢
      rw [List.countP_cons, hzero]
      simp [loadingEntry, hlabel r hgeo, hsame]
    · obtain ⟨w, hw2⟩ := hweather r hgeo
      rw [hw] at hw2
      cases hw2
  refine ⟨hcount, ?_⟩
  rw [hstep]
  exact hcount

/-- Adding " oslo" and then "OSLO " when the geocoder labels the match "Oslo". -/
theorem add_twice_single_entry_witness :
    (step asciiLower
      (addCompleted asciiLower Store.init " oslo" (geoOk 59.91 10.75 "Oslo") ⟨1000, 9, 5⟩
        (weatherOk 3.4 61) ⟨2000, 9, 6⟩)
      (.add "OSLO ")).favs =
      [{ id := "Oslo-1000", label := "Oslo", latitude := some 59.91, longitude := some 10.75,
         temp := .num 3, weather := "Rain", updatedAt := some "09:06", error := none }] ∧
    labelCount asciiLower
      (step asciiLower
        (addCompleted asciiLower Store.init " oslo" (geoOk 59.91 10.75 "Oslo") ⟨1000, 9, 5⟩
          (weatherOk 3.4 61) ⟨2000, 9, 6⟩)
        (.add "OSLO ")).favs (trim "OSLO ") = 1 := by
  have h := add_twice_single_entry asciiLower Store.init " oslo" "OSLO "
    (geoOk 59.91 10.75 "Oslo") ⟨1000, 9, 5⟩ (weatherOk 3.4 61) ⟨2000, 9, 6⟩
    (by decide) (by decide) (by decide)
    (by intro r hr; cases hr; decide)
  refine ⟨?_, (h.2 (by decide) (fun r _ => ⟨_, rfl⟩)).2⟩
  rw [h.1]
  decide!

theorem writeWeather_absent (id : String) (w : WeatherResult) (favs : List Fav)
    (h : ∀ f ∈ favs, f.id ≠ id) : writeWeather id w favs = favs := by
  unfold writeWeather
  induction favs with
  | nil => rfl
  | cons f favs ih =>
    have hf : f.id ≠ id := h f (List.mem_cons_self _ _)
    rw [List.map_cons, ih (fun g hg => h g (List.mem_cons_of_mem _ hg))]
    simp [hf]

theorem writeFailure_absent (id : String) (e : JsError) (favs : List Fav)
    (h : ∀ f ∈ favs, f.id ≠ id) : writeFailure id e favs = favs := by
  unfold writeFailure
  induction favs with
  | nil => rfl
  | cons f favs ih =>
    have hf : f.id ≠ id := h f (List.mem_cons_self _ _)
    rw [List.map_cons, ih (fun g hg => h g (List.mem_cons_of_mem _ hg))]
    simp [hf]

/-- The write-backs that do check for the target: when no entry has the id, the
settling of a refresh, with success or failure, and the successful settling of
the weather request of an add leave the list as it is. -/
theorem writeback_absent_target (toLowerCase : String → String) (s : Store) (n : Nat)
    (id : String) (fetched : Fetched WeatherData) (clock : Clock)
    (habsent : ∀ f ∈ s.favs, f.id ≠ id) :
    (s.calls.get? n = some (.refreshAwaitingWeather id) →
      (step toLowerCase s (.weatherSettled n fetched clock)).favs = s.favs) ∧
    (∀ cityName w, s.calls.get? n = some (.addAwaitingWeather id cityName) →
      fetchCurrentWeather fetched clock = .ok w →
      (step toLowerCase s (.weatherSettled n fetched clock)).favs = s.favs) := by
  constructor
  · intro hcall
    simp only [step, hcall, refreshFavouriteWeather]
    cases fetchCurrentWeather fetched clock with
    | ok w => exact writeWeather_absent id w s.favs habsent
    | error e => exact writeFailure_absent id e s.favs habsent
  · intro cityName w hcall hw
    simp only [step, hcall, addFavouriteWeather, hw]
    exact writeWeather_absent id w s.favs habsent

/-- C9: a fetch that completes after its target was removed must write nothing, and the
code breaks this for the weather fetch of an add that fails. "Oslo" is added and
resolved, its entry "Oslo-1000" is removed while the weather fetch is pending,
and the list is empty; the fetch then fails with status 500 and the `catch` of
`addFavourite` inserts an entry labelled "Oslo" with the lookup message. -/
theorem add_failure_after_remove_inserts :
    (run asciiLower Store.init
      [.add "Oslo", .coordsSettled 0 (geoOk 59.91 10.75 "Oslo") ⟨1000, 9, 5⟩]).favs.map
        (fun f => f.id) = ["Oslo-1000"] ∧
    (run asciiLower Store.init
      [.add "Oslo", .coordsSettled 0 (geoOk 59.91 10.75 "Oslo") ⟨1000, 9, 5⟩]).calls =
        [.addAwaitingWeather "Oslo-1000" "Oslo"] ∧
    (run asciiLower Store.init
      [.add "Oslo", .coordsSettled 0 (geoOk 59.91 10.75 "Oslo") ⟨1000, 9, 5⟩,
       .remove "Oslo-1000"]).favs = [] ∧
    (run asciiLower Store.init
      [.add "Oslo", .coordsSettled 0 (geoOk 59.91 10.75 "Oslo") ⟨1000, 9, 5⟩,
       .remove "Oslo-1000", .weatherSettled 0 (weatherStatus 500) ⟨2000, 9, 6⟩]).favs =
      [{ id := "error-2000", label := "Oslo", latitude := none, longitude := none,
         temp := .str "--", weather := "Unknown", updatedAt := none,
         error := some lookupErrorMessage }] := by
  refine ⟨by decide!, by decide!, by decide!, by decide!⟩

theorem writeWeather_fields (id : String) (w : WeatherResult) (favs : List Fav) :
    ∀ f ∈ writeWeather id w favs, f.id = id →
      f.temp = w.temp ∧ f.weather = w.weather ∧ f.updatedAt = some w.updatedAt := by
  intro f hf hid
  simp only [writeWeather, List.mem_map] at hf
  obtain ⟨g, -, rfl⟩ := hf
  by_cases hg : g.id = id
  · simp [hg]
  · simp [hg] at hid

theorem writeWeather_present (id : String) (w : WeatherResult) (favs : List Fav)
    (h : ∃ f ∈ favs, f.id = id) : ∃ f ∈ writeWeather id w favs, f.id = id := by
  obtain ⟨f, hf, hid⟩ := h
  refine ⟨_, List.mem_map_of_mem _ hf, ?_⟩
  simp [hid]

theorem writeFailure_present (id : String) (e : JsError) (favs : List Fav)
    (h : ∃ f ∈ favs, f.id = id) : ∃ f ∈ writeFailure id e favs, f.id = id := by
  obtain ⟨f, hf, hid⟩ := h
  refine ⟨_, List.mem_map_of_mem _ hf, ?_⟩
  simp [hid]

theorem refreshSettled_store (toLowerCase : String → String) (s : Store) (n : Nat)
    (id : String) (fetched : Fetched WeatherData) (clock : Clock)
    (hcall : s.calls.get? n = some (.refreshAwaitingWeather id)) :
    (step toLowerCase s (.weatherSettled n fetched clock)).calls = s.calls.set n .done ∧
    ((∃ f ∈ s.favs, f.id = id) →
      ∃ f ∈ (step toLowerCase s (.weatherSettled n fetched clock)).favs, f.id = id) := by
  simp only [step, hcall, refreshFavouriteWeather]
  cases fetchCurrentWeather fetched clock with
  | ok w => exact ⟨rfl, writeWeather_present id w s.favs⟩
  | error e => exact ⟨rfl, writeFailure_present id e s.favs⟩

theorem weatherSettled_ok_favs (toLowerCase : String → String) (s : Store) (n : Nat)
    (id : String) (fetched : Fetched WeatherData) (clock : Clock) (w : WeatherResult)
    (hcall : s.calls.get? n = some (.refreshAwaitingWeather id) ∨
      ∃ cityName, s.calls.get? n = some (.addAwaitingWeather id cityName))
    (hw : fetchCurrentWeather fetched clock = .ok w) :
    (step toLowerCase s (.weatherSettled n fetched clock)).favs = writeWeather id w s.favs := by
  rcases hcall with hcall | ⟨cityName, hcall⟩
  · simp only [step, hcall, refreshFavouriteWeather, hw]
  · simp only [step, hcall, addFavouriteWeather, hw]

/-- C10: a stale result must be discarded, and the code writes it. The entry "Oslo-1000"
is refreshed twice. The newer fetch completes first, at 10:01, with 20 degrees
and "Clear"; the older fetch completes after it, at 10:02, with 5 degrees and
"Rain", and its write-back overwrites the entry, which ends with the older
fetch's temp, weather and time. -/
theorem older_refresh_overwrites_newer :
    (run asciiLower
      { favs := [{ id := "Oslo-1000", label := "Oslo", latitude := some 59.91,
                   longitude := some 10.75, temp := .num 3, weather := "Rain",
                   updatedAt := some "09:06", error := none }],
        query := "", calls := [], requests := [] }
      [.refresh "Oslo-1000", .refresh "Oslo-1000",
       .weatherSettled 1 (weatherOk 20 0) ⟨5000, 10, 1⟩]).favs =
      [{ id := "Oslo-1000", label := "Oslo", latitude := some 59.91, longitude := some 10.75,
         temp := .num 20, weather := "Clear", updatedAt := some "10:01", error := none }] ∧
    (run asciiLower
      { favs := [{ id := "Oslo-1000", label := "Oslo", latitude := some 59.91,
                   longitude := some 10.75, temp := .num 3, weather := "Rain",
                   updatedAt := some "09:06", error := none }],
        query := "", calls := [], requests := [] }
      [.refresh "Oslo-1000", .refresh "Oslo-1000",
       .weatherSettled 1 (weatherOk 20 0) ⟨5000, 10, 1⟩,
       .weatherSettled 0 (weatherOk 5 61) ⟨6000, 10, 2⟩]).favs =
      [{ id := "Oslo-1000", label := "Oslo", latitude := some 59.91, longitude := some 10.75,
         temp := .num 5, weather := "Rain", updatedAt := some "10:02", error := none }] := by
  refine ⟨by decide!, by decide!⟩

/-- The write-back of the store looks at the id only. When two fetches are pending
for the same id, the older one issued by an add or a refresh and the newer one
by a refresh, and the older one completes with success after the newer one,
every entry with the id ends with the temp, weather and update time of the older
fetch, and an entry with the id that was in the list is still there. -/
theorem older_fetch_overwrites (toLowerCase : String → String) (s : Store) (id : String)
    (m n : Nat) (older newer : Fetched WeatherData) (olderClock newerClock : Clock)
    (wOld : WeatherResult) (hmn : m < n)
    (hm : s.calls.get? m = some (.refreshAwaitingWeather id) ∨
      ∃ cityName, s.calls.get? m = some (.addAwaitingWeather id cityName))
    (hn : s.calls.get? n = some (.refreshAwaitingWeather id))
    (hold : fetchCurrentWeather older olderClock = .ok wOld) :
    (∀ f ∈ (run toLowerCase s [.weatherSettled n newer newerClock,
        .weatherSettled m older olderClock]).favs, f.id = id →
      f.temp = wOld.temp ∧ f.weather = wOld.weather ∧ f.updatedAt = some wOld.updatedAt) ∧
    ((∃ f ∈ s.favs, f.id = id) →
      ∃ f ∈ (run toLowerCase s [.weatherSettled n newer newerClock,
        .weatherSettled m older olderClock]).favs, f.id = id) := by
  obtain ⟨hcalls, hpresent⟩ := refreshSettled_store toLowerCase s n id newer newerClock hn
  have hm1 : (step toLowerCase s (.weatherSettled n newer newerClock)).calls.get? m =
        some (.refreshAwaitingWeather id) ∨
      ∃ cityName, (step toLowerCase s (.weatherSettled n newer newerClock)).calls.get? m =
        some (.addAwaitingWeather id cityName) := by
    have hne : n ≠ m := by omega
    rw [hcalls]
    simpa [List.getElem?_set_ne hne] using hm
  have hfavs := weatherSettled_ok_favs toLowerCase _ m id older olderClock wOld hm1 hold
  have hrun : run toLowerCase s [.weatherSettled n newer newerClock,
      .weatherSettled m older olderClock] =
      step toLowerCase (step toLowerCase s (.weatherSettled n newer newerClock))
        (.weatherSettled m older olderClock) := rfl
  rw [hrun, hfavs]
  exact ⟨writeWeather_fields id wOld _, fun h => writeWeather_present id wOld _ (hpresent h)⟩

/-- The add of "Oslo" followed by a refresh of its entry: the refresh's fetch
completes first, the add's fetch after it, and the entry shows the add's
result. -/
theorem older_fetch_overwrites_witness :
    ∃ f ∈ (run asciiLower
        (run asciiLower Store.init
          [.add "Oslo", .coordsSettled 0 (geoOk 59.91 10.75 "Oslo") ⟨1000, 9, 5⟩,
           .refresh "Oslo-1000"])
        [.weatherSettled 1 (weatherOk 20 0) ⟨5000, 10, 1⟩,
         .weatherSettled 0 (weatherOk 5 61) ⟨6000, 10, 2⟩]).favs,
      f.id = "Oslo-1000" ∧ f.temp = .num 5 ∧ f.weather = "Rain" ∧
        f.updatedAt = some "10:02" := by
  have h := older_fetch_overwrites asciiLower
    (run asciiLower Store.init
      [.add "Oslo", .coordsSettled 0 (geoOk 59.91 10.75 "Oslo") ⟨1000, 9, 5⟩,
       .refresh "Oslo-1000"])
    "Oslo-1000" 0 1 (weatherOk 5 61) (weatherOk 20 0) ⟨6000, 10, 2⟩ ⟨5000, 10, 1⟩
    { temp := .num 5, weather := "Rain", updatedAt := "10:02" }
    (by decide) (Or.inr ⟨"Oslo", by decide!⟩) (by decide!)
    ((rfl : fetchCurrentWeather (weatherOk 5 61) ⟨6000, 10, 2⟩ = .ok _).trans
      (congrArg Except.ok (by decide!)))
  obtain ⟨f, hf, hid⟩ := h.2 (by decide!)
  exact ⟨f, hf, hid, h.1 f hf hid⟩

/-! ### Weather client -/

theorem mathRound_nearest (t : ℚ) :
    ∃ z : ℤ, mathRound t = (z : ℚ) ∧ (z : ℚ) - 1 / 2 ≤ t ∧ t < (z : ℚ) + 1 / 2 := by
  refine ⟨⌊t + 1 / 2⌋, rfl, ?_, ?_⟩
  · have h := Int.floor_le (t + 1 / 2)
    linarith
  · have h := Int.lt_floor_add_one (t + 1 / 2)
    linarith

/-- C12: for a weather response with an ok status and a readable body,
`fetchCurrentWeather` resolves whatever the temperature field holds. The summary
is that of the weather code and the update time is the clock's; when
`temperature_2m` is a number the temp is the integer nearest to it, and when it
is absent or no number the temp is the string "--". -/
theorem fetchCurrentWeather_temp (res : Response WeatherData) (data : WeatherData)
    (clock : Clock) (hok : res.ok = true) (hjson : res.json = .ok data) :
    ∃ w, fetchCurrentWeather (.ok res) clock = .ok w ∧
      w.weather = codeToSummary data.weather_code ∧ w.updatedAt = timeHHMM clock ∧
      (∀ t, data.temperature_2m = .num t →
        ∃ z : ℤ, w.temp = .num (z : ℚ) ∧ (z : ℚ) - 1 / 2 ≤ t ∧ t < (z : ℚ) + 1 / 2) ∧
      ((∀ t, data.temperature_2m ≠ .num t) → w.temp = .str "--") := by
  refine ⟨_, by simp only [fetchCurrentWeather, hok, hjson]; rfl, rfl, rfl, ?_, ?_⟩
  · intro t ht
    obtain ⟨z, hz, hlo, hhi⟩ := mathRound_nearest t
    exact ⟨z, by simp only [ht, hz], hlo, hhi⟩
  · intro hnot
    cases htemp : data.temperature_2m with
    | num t => exact absurd htemp (hnot t)
    | undefined => rfl
    | null => rfl
    | bool b => rfl
    | str s => rfl

/-- A response without the temperature field, at 09:05 with weather code 3, and a
response with the temperature 3.5. -/
theorem fetchCurrentWeather_temp_witness :
    (∃ w, fetchCurrentWeather
        (.ok { ok := true, status := 200,
               json := .ok { temperature_2m := .undefined, weather_code := .num 3 } })
        ⟨0, 9, 5⟩ = .ok w ∧
      w.temp = .str "--" ∧ w.weather = "Partly cloudy" ∧ w.updatedAt = "09:05") ∧
    (∃ w, fetchCurrentWeather
        (.ok { ok := true, status := 200,
               json := .ok { temperature_2m := .num 3.5, weather_code := .num 61 } })
        ⟨0, 9, 5⟩ = .ok w ∧
      ∃ z : ℤ, w.temp = .num (z : ℚ) ∧ (z : ℚ) - 1 / 2 ≤ 3.5 ∧ (3.5 : ℚ) < (z : ℚ) + 1 / 2) := by
  constructor
  · obtain ⟨w, hw, hweather, htime, -, hnone⟩ := fetchCurrentWeather_temp
      { ok := true, status := 200,
        json := .ok { temperature_2m := .undefined, weather_code := .num 3 } }
      { temperature_2m := .undefined, weather_code := .num 3 } ⟨0, 9, 5⟩ rfl rfl
    exact ⟨w, hw, hnone (fun t h => by cases h), hweather.trans (by decide),
      htime.trans (by decide)⟩
  · obtain ⟨w, hw, -, -, hnum, -⟩ := fetchCurrentWeather_temp
      { ok := true, status := 200,
        json := .ok { temperature_2m := .num 3.5, weather_code := .num 61 } }
      { temperature_2m := .num 3.5, weather_code := .num 61 } ⟨0, 9, 5⟩ rfl rfl
    exact ⟨w, hw, hnum 3.5 rfl⟩

/-! ### Failure handling -/

/-- C13: failure handling of the home-location fetch. For every home slot and every
fetch of it that is in flight, when the fetch fails with a failure named
"AbortError" the displayed state (weather, temp, update time, error) is
unchanged; when it fails with any other failure the slot shows weather
"Unknown", temp "--", no update time, and the failure's message as the error.
A fetch whose signal was aborted fails in the first way whatever the network
yields. -/
theorem home_fetch_failure (h : Home) (i : Nat) (f : HomeFetch)
    (fetched : Fetched WeatherData) (clock : Clock)
    (hget : h.fetches.get? i = some f) (hflight : f.settled = false) :
    (f.aborted = true → (homeFetchSettled h i fetched clock).shown = h.shown) ∧
    (∀ e, f.aborted = false → fetchCurrentWeather fetched clock = .error e →
      e.name = "AbortError" → (homeFetchSettled h i fetched clock).shown = h.shown) ∧
    (∀ e, f.aborted = false → fetchCurrentWeather fetched clock = .error e →
      e.name ≠ "AbortError" →
      (homeFetchSettled h i fetched clock).shown =
        ("Unknown", .str "--", none, some e.message)) := by
  unfold homeFetchSettled
  rw [hget]
  simp only [hflight, Bool.false_eq_true, if_false]
  refine ⟨?_, ?_, ?_⟩
  · intro hab
    simp only [hab, if_true, fetchCurrentWeather, abortError]
    rfl
  · intro e hab he hname
    simp only [hab, Bool.false_eq_true, if_false, he, hname, if_true]
    rfl
  · intro e hab he hname
    simp only [hab, Bool.false_eq_true, if_false, he, hname]
    rfl

/-- The fetch for (59.911, 10.757) answered with status 500, and the same fetch
rejected with an abort error. -/
theorem home_fetch_failure_witness :
    (homeRun Home.init [.coordsChange ⟨59.911, 10.757⟩,
      .fetchSettled 0 (weatherStatus 500) ⟨0, 9, 5⟩]).shown =
      ("Unknown", .str "--", none, some "Weather request failed (500)") ∧
    (homeRun Home.init [.coordsChange ⟨59.911, 10.757⟩,
      .fetchSettled 0 (.error abortError) ⟨0, 9, 5⟩]).shown =
      (homeRun Home.init [.coordsChange ⟨59.911, 10.757⟩]).shown :=
  ⟨(home_fetch_failure (homeRun Home.init [.coordsChange ⟨59.911, 10.757⟩]) 0
      { latitude := 59.911, longitude := 10.757, aborted := false, settled := false }
      (weatherStatus 500) ⟨0, 9, 5⟩ (by decide!) rfl).2.2
      ⟨"Error", "Weather request failed (500)"⟩ rfl
      ((rfl : fetchCurrentWeather (weatherStatus 500) ⟨0, 9, 5⟩ = .error _).trans
        (congrArg Except.error (by decide)))
      (by decide),
   (home_fetch_failure (homeRun Home.init [.coordsChange ⟨59.911, 10.757⟩]) 0
      { latitude := 59.911, longitude := 10.757, aborted := false, settled := false }
      (.error abortError) ⟨0, 9, 5⟩ (by decide!) rfl).2.1
      abortError rfl rfl rfl⟩

/-- C14: a single call of add must insert at most one entry and leave none of its entries
loading, and the code breaks this when the lookup succeeds and the weather fetch
fails. "Oslo" is added to the empty list and resolved; the weather fetch fails
with status 500; the `catch` of `addFavourite` inserts a second entry, and the
first stays on "Loading..." with no activation left to update it. -/
theorem add_weather_failure_two_entries :
    (addCompleted asciiLower Store.init "Oslo" (geoOk 59.91 10.75 "Oslo") ⟨1000, 9, 5⟩
      (weatherStatus 500) ⟨2000, 9, 6⟩).favs =
      [{ id := "error-2000", label := "Oslo", latitude := none, longitude := none,
         temp := .str "--", weather := "Unknown", updatedAt := none,
         error := some lookupErrorMessage },
       { id := "Oslo-1000", label := "Oslo", latitude := some 59.91, longitude := some 10.75,
         temp := .str "--", weather := "Loading...", updatedAt := none, error := none }] ∧
    (addCompleted asciiLower Store.init "Oslo" (geoOk 59.91 10.75 "Oslo") ⟨1000, 9, 5⟩
      (weatherStatus 500) ⟨2000, 9, 6⟩).favs.length = Store.init.favs.length + 2 ∧
    (addCompleted asciiLower Store.init "Oslo" (geoOk 59.91 10.75 "Oslo") ⟨1000, 9, 5⟩
      (weatherStatus 500) ⟨2000, 9, 6⟩).calls = [.done] := by
  refine ⟨by decide!, by decide!, by decide!⟩

/-- The calls of add that insert at most one entry: every call whose lookup fails
or whose weather fetch succeeds. -/
theorem addCompleted_length_le (toLowerCase : String → String) (s : Store) (rawName : String)
    (geo : Fetched (Option GeoMatch)) (geoClock : Clock) (weather : Fetched WeatherData)
    (weatherClock : Clock) (hne : trim rawName ≠ "")
    (hgood : ∀ r e, cityToCoords geo = .ok r →
      fetchCurrentWeather weather weatherClock ≠ .error e) :
    (addCompleted toLowerCase s rawName geo geoClock weather weatherClock).favs.length ≤
      s.favs.length + 1 := by
  rcases addCompleted_cases toLowerCase s rawName geo geoClock weather weatherClock hne with
    ⟨-, hs1⟩ | ⟨-, ⟨e, -, hf⟩ | ⟨r, w, -, -, hf⟩ | ⟨r, e, hgeo, hw, -⟩⟩
  · rw [hs1]
    exact Nat.le_succ _
  · rw [hf]
    simp
  · rw [hf]
    simp [writeWeather]
  · exact absurd hw (hgood r e hgeo)

/-- C11: entry ids must be unique in the list, and the code breaks this when two
insertions read the same clock. "Xyzzy" and "Qwerty" are added to the empty list
and both lookups find nothing at clock reading 1000: both entries get the id
"error-1000". Likewise " roma" and "rome", both resolved to "Rome" at clock
reading 1000, both get the id "Rome-1000". -/
theorem same_clock_same_id :
    (run asciiLower Store.init
      [.add "Xyzzy", .add "Qwerty", .coordsSettled 0 geoEmpty ⟨1000, 9, 5⟩,
       .coordsSettled 1 geoEmpty ⟨1000, 9, 5⟩]).favs.map (fun f => (f.id, f.label)) =
      [("error-1000", "Qwerty"), ("error-1000", "Xyzzy")] ∧
    ¬ ((run asciiLower Store.init
      [.add "Xyzzy", .add "Qwerty", .coordsSettled 0 geoEmpty ⟨1000, 9, 5⟩,
       .coordsSettled 1 geoEmpty ⟨1000, 9, 5⟩]).favs.map (fun f => f.id)).Nodup ∧
    (run asciiLower Store.init
      [.add " roma", .add "rome", .coordsSettled 0 (geoOk 41.89 12.51 "Rome") ⟨1000, 9, 5⟩,
       .coordsSettled 1 (geoOk 41.89 12.51 "Rome") ⟨1000, 9, 5⟩]).favs.map (fun f => f.id) =
      ["Rome-1000", "Rome-1000"] := by
  refine ⟨by decide!, by decide!, by decide!⟩

/-! ### Id stamps -/

theorem digitChar_value : ∀ k < 10, (Nat.digitChar k).toNat - 48 = k := by decide

theorem digitChar_ne_dash : ∀ k < 10, Nat.digitChar k ≠ '-' := by decide

theorem toDigitsCore_value (fuel : Nat) : ∀ (n : Nat) (ds : List Char), n < fuel →
    (Nat.toDigitsCore 10 fuel n ds).foldl (fun acc c => 10 * acc + (c.toNat - 48)) 0 =
      ds.foldl (fun acc c => 10 * acc + (c.toNat - 48)) n := by
  induction fuel with
  | zero => intro n ds h; omega
  | succ fuel ih =>
    intro n ds h
    have hd := digitChar_value (n % 10) (Nat.mod_lt _ (by decide))
    simp only [Nat.toDigitsCore]
    by_cases h0 : n / 10 = 0
    · simp only [h0, if_true, List.foldl_cons, hd]
      congr 1
      omega
    · simp only [h0, if_false]
      rw [ih (n / 10) _ (by omega), List.foldl_cons, hd]
      congr 1
      omega

theorem toDigitsCore_no_dash (fuel : Nat) : ∀ (n : Nat) (ds : List Char),
    '-' ∈ Nat.toDigitsCore 10 fuel n ds → '-' ∈ ds := by
  induction fuel with
  | zero => intro n ds h; simpa [Nat.toDigitsCore] using h
  | succ fuel ih =>
    intro n ds h
    have hd := digitChar_ne_dash (n % 10) (Nat.mod_lt _ (by decide))
    simp only [Nat.toDigitsCore] at h
    by_cases h0 : n / 10 = 0
    · simp only [h0, if_true, List.mem_cons] at h
      rcases h with h | h
      · exact absurd h.symm hd
      · exact h
    · simp only [h0, if_false] at h
      have := ih _ _ h
      simp only [List.mem_cons] at this
      rcases this with h | h
      · exact absurd h.symm hd
      · exact h

theorem takeWhile_until_dash (ds rest : List Char) (h : '-' ∉ ds) :
    (ds ++ '-' :: rest).takeWhile (fun c => c != '-') = ds := by
  induction ds with
  | nil => simp
  | cons d ds ih =>
    have hd : d ≠ '-' := fun e => h (e ▸ List.mem_cons_self _ _)
    have hds : '-' ∉ ds := fun m => h (List.mem_cons_of_mem _ m)
    simp [List.takeWhile_cons, hd, ih hds]

theorem stampOf_stamped (p : String) (t : Nat) : stampOf (p ++ "-" ++ toString t) = t := by
  have hdata : (p ++ "-" ++ toString t).data = p.data ++ '-' :: Nat.toDigits 10 t := by
    simp [String.data_append, toString, Nat.repr, List.asString]
  have hno : '-' ∉ (Nat.toDigits 10 t).reverse := by
    intro h
    have := toDigitsCore_no_dash (t + 1) t [] (List.mem_reverse.1 h)
    simp at this
  unfold stampOf
  rw [hdata, List.reverse_append, List.reverse_cons, List.append_assoc, List.singleton_append,
    takeWhile_until_dash _ _ hno, List.reverse_reverse]
  unfold digitsValue
  have := toDigitsCore_value (t + 1) t [] (Nat.lt_succ_self t)
  simpa [Nat.toDigits] using this

theorem writeWeather_ids (id : String) (w : WeatherResult) (favs : List Fav) :
    (writeWeather id w favs).map (fun f => f.id) = favs.map (fun f => f.id) := by
  simp only [writeWeather, List.map_map]
  congr 1
  funext f
  by_cases h : f.id = id <;> simp [h]

theorem writeLoading_ids (id : String) (favs : List Fav) :
    (writeLoading id favs).map (fun f => f.id) = favs.map (fun f => f.id) := by
  simp only [writeLoading, List.map_map]
  congr 1
  funext f
  by_cases h : f.id = id <;> simp [h]

theorem writeFailure_ids (id : String) (e : JsError) (favs : List Fav) :
    (writeFailure id e favs).map (fun f => f.id) = favs.map (fun f => f.id) := by
  simp only [writeFailure, List.map_map]
  congr 1
  funext f
  by_cases h : f.id = id <;> simp [h]

theorem idsBelow_iff (b : Nat) (favs : List Fav) :
    IdsBelow b favs ↔
      (favs.map (fun f => f.id)).Nodup ∧ ∀ i ∈ favs.map (fun f => f.id), stampOf i < b := by
  simp [IdsBelow]

theorem idsBelow_of_ids (b : Nat) (favs favs2 : List Fav)
    (h : favs2.map (fun f => f.id) = favs.map (fun f => f.id)) (hinv : IdsBelow b favs) :
    IdsBelow b favs2 := by
  rw [idsBelow_iff] at hinv ⊢
  rw [h]
  exact hinv

theorem idsBelow_mono (b c : Nat) (favs : List Fav) (hbc : b ≤ c) (hinv : IdsBelow b favs) :
    IdsBelow c favs :=
  ⟨hinv.1, fun f hf => Nat.lt_of_lt_of_le (hinv.2 f hf) hbc⟩

theorem idsBelow_insert (b now : Nat) (favs : List Fav) (f : Fav) (hb : b ≤ now)
    (hstamp : stampOf f.id = now) (hinv : IdsBelow b favs) :
    IdsBelow (now + 1) (f :: favs) := by
  refine ⟨?_, ?_⟩
  · rw [List.map_cons, List.nodup_cons]
    refine ⟨?_, hinv.1⟩
    intro hmem
    obtain ⟨g, hg, hgid⟩ := List.mem_map.1 hmem
    have hlt := hinv.2 g hg
    have hgid2 : g.id = f.id := hgid
    rw [hgid2, hstamp] at hlt
    omega
  · intro g hg
    rcases List.mem_cons.1 hg with rfl | hg
    · omega
    · have := hinv.2 g hg
      omega

theorem idsBelow_catch (b : Nat) (s : Store) (n : Nat) (cityName : String) (clock : Clock)
    (hb : b ≤ clock.now) (hinv : IdsBelow b s.favs) :
    IdsBelow (clock.now + 1) (addFavouriteCatch s n cityName clock).favs :=
  idsBelow_insert b clock.now s.favs _ hb (stampOf_stamped "error" clock.now) hinv

theorem idsBelow_settled (toLowerCase : String → String) (b : Nat) (s : Store) (n : Nat)
    (clock : Clock) (hb : b ≤ clock.now) (hinv : IdsBelow b s.favs) :
    (∀ fetched, IdsBelow (clock.now + 1)
      (step toLowerCase s (.coordsSettled n fetched clock)).favs) ∧
    (∀ fetched, IdsBelow (clock.now + 1)
      (step toLowerCase s (.weatherSettled n fetched clock)).favs) := by
  have hup : IdsBelow (clock.now + 1) s.favs := idsBelow_mono b _ _ (by omega) hinv
  constructor
  · intro fetched
    simp only [step]
    cases hcall : s.calls.get? n with
    | none => exact hup
    | some call =>
      cases call with
      | addAwaitingCoords cityName =>
        simp only [addFavouriteCoords]
        cases hgeo : cityToCoords fetched with
        | error e => exact idsBelow_catch b s n cityName clock hb hinv
        | ok r =>
          exact idsBelow_insert b clock.now s.favs _ hb (stampOf_stamped r.label clock.now) hinv
      | addAwaitingWeather id cityName => exact hup
      | refreshAwaitingWeather id => exact hup
      | done => exact hup
  · intro fetched
    simp only [step]
    cases hcall : s.calls.get? n with
    | none => exact hup
    | some call =>
      cases call with
      | addAwaitingCoords cityName => exact hup
      | addAwaitingWeather id cityName =>
        simp only [addFavouriteWeather]
        cases hw : fetchCurrentWeather fetched clock with
        | error e => exact idsBelow_catch b s n cityName clock hb hinv
        | ok w => exact idsBelow_of_ids _ s.favs _ (writeWeather_ids id w s.favs) hup
      | refreshAwaitingWeather id =>
        simp only [refreshFavouriteWeather]
        cases hw : fetchCurrentWeather fetched clock with
        | error e => exact idsBelow_of_ids _ s.favs _ (writeFailure_ids id e s.favs) hup
        | ok w => exact idsBelow_of_ids _ s.favs _ (writeWeather_ids id w s.favs) hup
      | done => exact hup

theorem idsBelow_intent (toLowerCase : String → String) (b : Nat) (s : Store)
    (hinv : IdsBelow b s.favs) :
    (∀ rawName, IdsBelow b (step toLowerCase s (.add rawName)).favs) ∧
    (∀ id, IdsBelow b (step toLowerCase s (.refresh id)).favs) ∧
    (∀ id, IdsBelow b (step toLowerCase s (.remove id)).favs) ∧
    (∀ text, IdsBelow b (step toLowerCase s (.changeText text)).favs) ∧
    (∀ data, data.Perm s.favs → IdsBelow b (step toLowerCase s (.dragEnd data)).favs) := by
  refine ⟨?_, ?_, ?_, ?_, ?_⟩
  · intro rawName
    simp only [step, addFavourite]
    split_ifs <;> exact hinv
  · intro id
    simp only [step, refreshFavourite]
    split
    · exact hinv
    · split
      · exact idsBelow_of_ids _ s.favs _ (writeLoading_ids id s.favs) hinv
      · exact hinv
  · intro id
    simp only [step, removeFavourite]
    exact ⟨hinv.1.sublist ((List.filter_sublist _).map _),
      fun f hf => hinv.2 f (List.mem_of_mem_filter hf)⟩
  · intro text
    exact hinv
  · intro data hperm
    simp only [step]
    exact ⟨(hperm.map _).nodup_iff.2 hinv.1, fun f hf => hinv.2 f (hperm.mem_iff.1 hf)⟩

theorem idsBelow_run (toLowerCase : String → String) (events : List Event) :
    ∀ (b : Nat) (s : Store), WellTimed toLowerCase b s events → IdsBelow b s.favs →
      ∃ c, IdsBelow c (run toLowerCase s events).favs := by
  induction events with
  | nil => intro b s _ hinv; exact ⟨b, hinv⟩
  | cons e events ih =>
    intro b s hwt hinv
    have hrun : run toLowerCase s (e :: events) = run toLowerCase (step toLowerCase s e) events :=
      rfl
    rw [hrun]
    obtain ⟨hadd, hrefresh, hremove, htext, hdrag⟩ := idsBelow_intent toLowerCase b s hinv
    cases e with
    | add rawName => exact ih b _ hwt (hadd rawName)
    | refresh id => exact ih b _ hwt (hrefresh id)
    | remove id => exact ih b _ hwt (hremove id)
    | changeText text => exact ih b _ hwt (htext text)
    | dragEnd data => exact ih b _ hwt.2 (hdrag data hwt.1)
    | coordsSettled n fetched clock =>
      exact ih _ _ hwt.2 ((idsBelow_settled toLowerCase b s n clock hwt.1 hinv).1 fetched)
    | weatherSettled n fetched clock =>
      exact ih _ _ hwt.2 ((idsBelow_settled toLowerCase b s n clock hwt.1 hinv).2 fetched)

/-- What the timestamp does achieve: from the empty list, along every sequence of
events whose settlings read strictly increasing clock values and whose drags
hand back a permutation of the list, no two entries have the same id. -/
theorem ids_unique_of_increasing_clock (toLowerCase : String → String) (events : List Event)
    (h : WellTimed toLowerCase 0 Store.init events) :
    ((run toLowerCase Store.init events).favs.map (fun f => f.id)).Nodup := by
  obtain ⟨c, hc⟩ := idsBelow_run toLowerCase events 0 Store.init h
    ⟨List.nodup_nil, fun f hf => absurd hf (List.not_mem_nil f)⟩
  exact hc.1

/-- An add of "Oslo" that runs to its end and an add of "Xyzzy" whose lookup finds
nothing, with clock readings 1000, 2000 and 3000: the two ids differ. -/
theorem ids_unique_of_increasing_clock_example :
    ((run asciiLower Store.init
      [.add "Oslo", .coordsSettled 0 (geoOk 59.91 10.75 "Oslo") ⟨1000, 9, 5⟩,
       .weatherSettled 0 (weatherOk 3.4 61) ⟨2000, 9, 6⟩, .add "Xyzzy",
       .coordsSettled 1 geoEmpty ⟨3000, 9, 7⟩]).favs.map (fun f => f.id)).Nodup :=
  ids_unique_of_increasing_clock asciiLower _
    ⟨Nat.zero_le _, by decide, by decide, trivial⟩

/-! ### Rounded keys -/

theorem toFixed3_eq_fixed3 (x : ℚ) : toFixed3 x = fixed3 (rounded3 x).1 (rounded3 x).2 := by
  simp only [toFixed3, fixed3, rounded3, round_eq, decide_eq_true_eq]
  rfl

theorem rounded3_nearest (x : ℚ) :
    ((rounded3 x).2 : ℚ) - 1 / 2 ≤ |x| * 1000 ∧ |x| * 1000 < ((rounded3 x).2 : ℚ) + 1 / 2 := by
  have h0 : (0 : ℚ) ≤ |x| * 1000 := by positivity
  have hfloor : (0 : ℤ) ≤ ⌊|x| * 1000 + 1 / 2⌋ := Int.floor_nonneg.2 (by linarith)
  have hcast : (((rounded3 x).2 : ℕ) : ℚ) = ((⌊|x| * 1000 + 1 / 2⌋ : ℤ) : ℚ) := by
    simp only [rounded3, round_eq]
    rw [← Int.cast_natCast, Int.toNat_of_nonneg hfloor]
  rw [hcast]
  constructor
  · have := Int.floor_le (|x| * 1000 + 1 / 2)
    linarith
  · have := Int.lt_floor_add_one (|x| * 1000 + 1 / 2)
    linarith

theorem toDigitsCore_not_mem (c : Char) (hc : ∀ k < 10, Nat.digitChar k ≠ c) (fuel : Nat) :
    ∀ (n : Nat) (ds : List Char), c ∈ Nat.toDigitsCore 10 fuel n ds → c ∈ ds := by
  induction fuel with
  | zero => intro n ds h; simpa [Nat.toDigitsCore] using h
  | succ fuel ih =>
    intro n ds h
    have hd := hc (n % 10) (Nat.mod_lt _ (by decide))
    simp only [Nat.toDigitsCore] at h
    by_cases h0 : n / 10 = 0
    · simp only [h0, if_true, List.mem_cons] at h
      rcases h with h | h
      · exact absurd h.symm hd
      · exact h
    · simp only [h0, if_false] at h
      have := ih _ _ h
      simp only [List.mem_cons] at this
      rcases this with h | h
      · exact absurd h.symm hd
      · exact h

theorem toDigits_not_mem (c : Char) (hc : ∀ k < 10, Nat.digitChar k ≠ c) (n : Nat) :
    c ∉ Nat.toDigits 10 n := by
  intro h
  have := toDigitsCore_not_mem c hc (n + 1) n [] h
  simp at this

theorem digitsValue_toDigits (n : Nat) : digitsValue (Nat.toDigits 10 n) = n := by
  have := toDigitsCore_value (n + 1) n [] (Nat.lt_succ_self n)
  simpa [digitsValue, Nat.toDigits] using this

theorem digitsValue_zeros (k : Nat) (ds : List Char) :
    digitsValue (List.replicate k '0' ++ ds) = digitsValue ds := by
  unfold digitsValue
  induction k with
  | zero => rfl
  | succ k ih =>
    rw [List.replicate_succ, List.cons_append, List.foldl_cons]
    exact ih

theorem toDigits_length_le (m : Nat) (h : m < 1000) : (Nat.toDigits 10 m).length ≤ 3 := by
  have := Nat.repr_length m 3 (by decide) (by simpa using h)
  simpa [Nat.repr, List.asString] using this

theorem fixed3_data (neg : Bool) (n : Nat) :
    (fixed3 neg n).data =
      ((if neg then ['-'] else []) ++ Nat.toDigits 10 (n / 1000) ++ ['.']) ++
        (List.replicate (3 - (Nat.toDigits 10 (n % 1000)).length) '0' ++
          Nat.toDigits 10 (n % 1000)) := by
  cases neg <;>
    simp [fixed3, padStart0, String.data_append, toString, Nat.repr, List.asString]

theorem fixed3_inj (a b : Bool) (n m : Nat) (h : fixed3 a n = fixed3 b m) : a = b ∧ n = m := by
  have hdata := congrArg String.data h
  rw [fixed3_data, fixed3_data] at hdata
  have hn := toDigits_length_le (n % 1000) (Nat.mod_lt _ (by decide))
  have hm := toDigits_length_le (m % 1000) (Nat.mod_lt _ (by decide))
  have hlen : (List.replicate (3 - (Nat.toDigits 10 (n % 1000)).length) '0' ++
        Nat.toDigits 10 (n % 1000)).length =
      (List.replicate (3 - (Nat.toDigits 10 (m % 1000)).length) '0' ++
        Nat.toDigits 10 (m % 1000)).length := by
    simp only [List.length_append, List.length_replicate]
    omega
  obtain ⟨hfront, hback⟩ := List.append_inj' hdata hlen
  have hr : n % 1000 = m % 1000 := by
    have := congrArg digitsValue hback
    simpa [digitsValue_zeros, digitsValue_toDigits] using this
  have hfront2 := (List.append_inj' hfront rfl).1
  have hnd : '-' ∉ Nat.toDigits 10 (n / 1000) := toDigits_not_mem '-' digitChar_ne_dash _
  have hmd : '-' ∉ Nat.toDigits 10 (m / 1000) := toDigits_not_mem '-' digitChar_ne_dash _
  have hq : a = b ∧ Nat.toDigits 10 (n / 1000) = Nat.toDigits 10 (m / 1000) := by
    cases a <;> cases b
    · exact ⟨rfl, by simpa using hfront2⟩
    · exfalso
      apply hnd
      have : Nat.toDigits 10 (n / 1000) = '-' :: Nat.toDigits 10 (m / 1000) := by
        simpa using hfront2
      rw [this]
      exact List.mem_cons_self _ _
    · exfalso
      apply hmd
      have : '-' :: Nat.toDigits 10 (n / 1000) = Nat.toDigits 10 (m / 1000) := by
        simpa using hfront2
      rw [← this]
      exact List.mem_cons_self _ _
    · exact ⟨rfl, by simpa using hfront2⟩
  refine ⟨hq.1, ?_⟩
  have hquot : n / 1000 = m / 1000 := by
    have := congrArg digitsValue hq.2
    simpa [digitsValue_toDigits] using this
  omega

theorem takeWhile_until (c : Char) (ds rest : List Char) (h : c ∉ ds) :
    (ds ++ c :: rest).takeWhile (fun x => x != c) = ds := by
  induction ds with
  | nil => simp
  | cons d ds ih =>
    have hd : d ≠ c := fun e => h (e ▸ List.mem_cons_self _ _)
    have hds : c ∉ ds := fun m => h (List.mem_cons_of_mem _ m)
    simp [List.takeWhile_cons, hd, ih hds]

theorem fixed3_no_comma (neg : Bool) (n : Nat) : ',' ∉ (fixed3 neg n).data := by
  have hdig : ∀ m, ',' ∉ Nat.toDigits 10 m := toDigits_not_mem ',' (by decide)
  rw [fixed3_data]
  intro h
  simp only [List.mem_append, List.mem_replicate, List.mem_singleton] at h
  rcases h with ((h | h) | h) | (h | h)
  · cases neg <;> simp at h
  · exact hdig _ h
  · exact absurd h (by decide)
  · exact absurd h.2 (by decide)
  · exact hdig _ h

theorem coordsKey_eq_iff (c d : Coords) : coordsKey c = coordsKey d ↔ roundedKey c = roundedKey d := by
  constructor
  · intro h
    have hdata := congrArg String.data h
    simp only [coordsKey, toFixed3_eq_fixed3, String.data_append] at hdata
    have hsplit : ∀ x y : String, (x ++ ",").data ++ y.data = x.data ++ ',' :: y.data := by
      intro x y
      simp [String.data_append]
    have hc := fixed3_no_comma (rounded3 c.latitude).1 (rounded3 c.latitude).2
    have hd := fixed3_no_comma (rounded3 d.latitude).1 (rounded3 d.latitude).2
    have hlist :
        (fixed3 (rounded3 c.latitude).1 (rounded3 c.latitude).2).data ++
            ',' :: (fixed3 (rounded3 c.longitude).1 (rounded3 c.longitude).2).data =
          (fixed3 (rounded3 d.latitude).1 (rounded3 d.latitude).2).data ++
            ',' :: (fixed3 (rounded3 d.longitude).1 (rounded3 d.longitude).2).data := by
      simpa using hdata
    have hlat : (fixed3 (rounded3 c.latitude).1 (rounded3 c.latitude).2).data =
        (fixed3 (rounded3 d.latitude).1 (rounded3 d.latitude).2).data := by
      have := congrArg (List.takeWhile (fun x => x != ',')) hlist
      rwa [takeWhile_until ',' _ _ hc, takeWhile_until ',' _ _ hd] at this
    rw [hlat] at hlist
    have hlon := List.cons.inj (List.append_cancel_left hlist)
    have h1 := fixed3_inj _ _ _ _ (String.ext hlat)
    have h2 := fixed3_inj _ _ _ _ (String.ext hlon.2)
    simp only [roundedKey]
    exact Prod.ext (Prod.ext h1.1 h1.2) (Prod.ext h2.1 h2.2)
  · intro h
    simp only [roundedKey, Prod.mk.injEq] at h
    simp only [coordsKey, toFixed3_eq_fixed3, h.1, h.2]

theorem resolvedKeys_eq_map (events : List HomeEvent) :
    resolvedKeys events = (resolvedCoords events).map coordsKey := by
  induction events with
  | nil => rfl
  | cons e events ih =>
    cases e with
    | coordsChange c => simp only [resolvedKeys, resolvedCoords, List.map_cons, ih]
    | fetchSettled i fetched clock => simpa only [resolvedKeys, resolvedCoords] using ih

theorem keyChanges_eq_changes (cs : List Coords) :
    ∀ last : Option Coords, keyChanges (last.map coordsKey) (cs.map coordsKey) =
      changes (last.map roundedKey) (cs.map roundedKey) := by
  induction cs with
  | nil => intro last; rfl
  | cons c cs ih =>
    intro last
    have hcond : (last.map coordsKey = some (coordsKey c)) ↔
        (last.map roundedKey = some (roundedKey c)) := by
      cases last with
      | none => simp
      | some d => simp [coordsKey_eq_iff]
    have hrec := ih (some c)
    simp only [Option.map_some'] at hrec
    simp only [List.map_cons, keyChanges, changes, hrec]
    by_cases hk : last.map coordsKey = some (coordsKey c)
    · rw [if_pos hk, if_pos (hcond.1 hk)]
    · rw [if_neg hk, if_neg (fun h => hk (hcond.2 h))]

/-- C2: the home-location controller issues a weather fetch exactly when the key of the
resolved coordinates differs from the key of the last fetch, and two keys are
equal exactly when latitude and longitude, each rounded to 3 decimal places,
are equal. Along every sequence of events from the first render the number of
fetches issued is the number of changes of the rounded coordinates, the first
set counted; (59.911, 10.757) followed by (59.9114, 10.7569), which round to the
same key "59.911,10.757", issue one fetch, and followed by (59.912, 10.757)
they issue two. -/
theorem home_fetches_eq_keyChanges (events : List HomeEvent) :
    (homeRun Home.init events).fetches.length =
      changes none ((resolvedCoords events).map roundedKey) ∧
    (homeRun Home.init events).fetches.length = keyChanges none (resolvedKeys events) ∧
    (∀ c d : Coords, coordsKey c = coordsKey d ↔ roundedKey c = roundedKey d) ∧
    (∀ x : ℚ, ((rounded3 x).1 = true ↔ x < 0) ∧
      ((rounded3 x).2 : ℚ) - 1 / 2 ≤ |x| * 1000 ∧ |x| * 1000 < ((rounded3 x).2 : ℚ) + 1 / 2) ∧
    (∀ (h : Home) (c : Coords), (onCoordsChange h c).fetches.length =
      h.fetches.length + (if h.lastMyFetchKeyRef = some (coordsKey c) then 0 else 1)) ∧
    coordsKey ⟨59.911, 10.757⟩ = "59.911,10.757" ∧
    coordsKey ⟨59.9114, 10.7569⟩ = "59.911,10.757" ∧
    coordsKey ⟨59.912, 10.757⟩ = "59.912,10.757" ∧
    (homeRun Home.init
      [.coordsChange ⟨59.911, 10.757⟩, .coordsChange ⟨59.9114, 10.7569⟩]).fetches.length = 1 ∧
    (homeRun Home.init
      [.coordsChange ⟨59.911, 10.757⟩, .coordsChange ⟨59.912, 10.757⟩]).fetches.length = 2 := by
  have hcount : (homeRun Home.init events).fetches.length =
      keyChanges none (resolvedKeys events) := by
    simpa [Home.init] using homeRun_fetches_length events Home.init
  refine ⟨?_, hcount, coordsKey_eq_iff, ?_, onCoordsChange_fetches_length,
    by decide!, by decide!, by decide!, by decide!, by decide!⟩
  · rw [hcount, resolvedKeys_eq_map]
    exact keyChanges_eq_changes (resolvedCoords events) none
  · intro x
    exact ⟨by simp [rounded3], rounded3_nearest x⟩

/-! ### Callbacks with the active key -/

theorem modify_comm {α : Type} (f g : α → α) (i j : Nat) (hij : i ≠ j) (l : List α) :
    (l.modify f i).modify g j = (l.modify g j).modify f i := by
  apply List.ext_getElem?
  intro k
  simp only [List.getElem?_modify]
  by_cases hi : i = k <;> by_cases hj : j = k
  · exact absurd (hi.trans hj.symm) hij
  · simp [hi, hj]
  · simp [hi, hj]
  · simp [hi, hj]

theorem modify_of_length_le {α : Type} (f : α → α) (i : Nat) (l : List α) (h : l.length ≤ i) :
    l.modify f i = l := by
  apply List.ext_getElem?
  intro k
  simp only [List.getElem?_modify]
  by_cases hi : i = k
  · have : l[k]? = none := List.getElem?_eq_none (by omega)
    simp [hi, this]
  · simp [hi]

theorem homeFetchSettled_absent (h : Home) (i : Nat) (fetched : Fetched WeatherData)
    (clock : Clock) (hget : h.fetches.get? i = none) :
    homeFetchSettled h i fetched clock = h := by
  unfold homeFetchSettled
  rw [hget]

theorem homeFetchSettled_settled (h : Home) (i : Nat) (f : HomeFetch)
    (fetched : Fetched WeatherData) (clock : Clock) (hget : h.fetches.get? i = some f)
    (hs : f.settled = true) : homeFetchSettled h i fetched clock = h := by
  unfold homeFetchSettled
  rw [hget]
  simp only [hs, if_true]

theorem homeFetchSettled_live (h : Home) (i : Nat) (f : HomeFetch)
    (fetched : Fetched WeatherData) (clock : Clock) (hget : h.fetches.get? i = some f)
    (hs : f.settled = false) :
    homeFetchSettled h i fetched clock =
      match fetchCurrentWeather (if f.aborted then .error abortError else fetched) clock with
      | .ok w =>
        { h with
          fetches := h.fetches.modify (fun f => { f with settled := true }) i
          myWeather := w.weather
          myTemp := w.temp
          myUpdatedAt := some w.updatedAt }
      | .error e =>
        if e.name = "AbortError" then
          { h with fetches := h.fetches.modify (fun f => { f with settled := true }) i }
        else
          { h with
            fetches := h.fetches.modify (fun f => { f with settled := true }) i
            myError := some e.message
            myWeather := "Unknown"
            myTemp := .str "--"
            myUpdatedAt := none } := by
  unfold homeFetchSettled
  rw [hget]
  simp only [hs, Bool.false_eq_true, if_false]

theorem homeFetchSettled_cleanup (h : Home) (i : Nat) (fetched : Fetched WeatherData)
    (clock : Clock) : (homeFetchSettled h i fetched clock).cleanup = h.cleanup := by
  cases hget : h.fetches.get? i with
  | none => rw [homeFetchSettled_absent h i fetched clock hget]
  | some f =>
    cases hs : f.settled with
    | true => rw [homeFetchSettled_settled h i f fetched clock hget hs]
    | false =>
      rw [homeFetchSettled_live h i f fetched clock hget hs]
      cases fetchCurrentWeather (if f.aborted = true then .error abortError else fetched)
        clock with
      | ok w => rfl
      | error e => by_cases he : e.name = "AbortError" <;> simp [he]

theorem homeFetchSettled_fetches (h : Home) (i : Nat) (fetched : Fetched WeatherData)
    (clock : Clock) :
    (homeFetchSettled h i fetched clock).fetches = h.fetches ∨
    (homeFetchSettled h i fetched clock).fetches =
      h.fetches.modify (fun f => { f with settled := true }) i := by
  cases hget : h.fetches.get? i with
  | none => left; rw [homeFetchSettled_absent h i fetched clock hget]
  | some f =>
    cases hs : f.settled with
    | true => left; rw [homeFetchSettled_settled h i f fetched clock hget hs]
    | false =>
      right
      rw [homeFetchSettled_live h i f fetched clock hget hs]
      cases fetchCurrentWeather (if f.aborted = true then .error abortError else fetched)
        clock with
      | ok w => rfl
      | error e => by_cases he : e.name = "AbortError" <;> simp [he]

theorem withoutCleanup_get? (h : Home) (i j : Nat) (co : Option Coords) :
    (withoutCleanup h i co).fetches.get? j =
      (h.fetches.get? j).map (fun f => if i = j then { f with aborted := true } else f) := by
  simp only [withoutCleanup, List.get?_eq_getElem?, List.getElem?_modify]
  by_cases hij : i = j
  · simp [hij]
  · simp [hij]

theorem withoutCleanup_settled (h : Home) (i j : Nat) (co : Option Coords)
    (fetched : Fetched WeatherData) (clock : Clock)
    (hidle : (h.cleanup = some i ∧ ∀ f, h.fetches.get? i = some f → f.settled = true) ∨
      (h.cleanup = none ∧ h.fetches.length ≤ i)) :
    homeFetchSettled (withoutCleanup h i co) j fetched clock =
      withoutCleanup (homeFetchSettled h j fetched clock) i co := by
  have hw := withoutCleanup_get? h i j co
  cases hget : h.fetches.get? j with
  | none =>
    rw [hget] at hw
    rw [homeFetchSettled_absent _ j fetched clock hw, homeFetchSettled_absent h j fetched clock hget]
  | some f =>
    rw [hget] at hw
    cases hs : f.settled with
    | true =>
      rw [homeFetchSettled_settled _ j _ fetched clock hw (by by_cases hij : i = j <;> simp [hij, hs]),
        homeFetchSettled_settled h j f fetched clock hget hs]
    | false =>
      have hij : i ≠ j := by
        intro hij
        subst hij
        rcases hidle with ⟨-, hset⟩ | ⟨-, hlen⟩
        · rw [hset f hget] at hs
          cases hs
        · have hnone : h.fetches.get? i = none := List.get?_eq_none.2 hlen
          rw [hnone] at hget
          cases hget
      simp only [hij, if_false, Option.map_some'] at hw
      rw [homeFetchSettled_live _ j f fetched clock hw hs,
        homeFetchSettled_live h j f fetched clock hget hs]
      cases fetchCurrentWeather (if f.aborted = true then .error abortError else fetched)
        clock with
      | ok w =>
        simp only [withoutCleanup]
        rw [modify_comm _ _ i j hij]
      | error e =>
        by_cases he : e.name = "AbortError"
        · simp only [he, if_true, withoutCleanup]
          rw [modify_comm _ _ i j hij]
        · simp only [he, if_false, withoutCleanup]
          rw [modify_comm _ _ i j hij]

theorem idle_after_settled (h : Home) (i j : Nat) (fetched : Fetched WeatherData) (clock : Clock)
    (hidle : (h.cleanup = some i ∧ ∀ f, h.fetches.get? i = some f → f.settled = true) ∨
      (h.cleanup = none ∧ h.fetches.length ≤ i)) :
    ((homeFetchSettled h j fetched clock).cleanup = some i ∧
      ∀ f, (homeFetchSettled h j fetched clock).fetches.get? i = some f → f.settled = true) ∨
    ((homeFetchSettled h j fetched clock).cleanup = none ∧
      (homeFetchSettled h j fetched clock).fetches.length ≤ i) := by
  have hcl := homeFetchSettled_cleanup h j fetched clock
  have hlen := homeFetchSettled_fetches_length h j fetched clock
  rcases hidle with ⟨hc, hset⟩ | ⟨hc, hle⟩
  · left
    refine ⟨hcl.trans hc, ?_⟩
    intro g hg
    rcases homeFetchSettled_fetches h j fetched clock with hf | hf
    · rw [hf] at hg
      exact hset g hg
    · rw [hf] at hg
      simp only [List.get?_eq_getElem?, List.getElem?_modify] at hg hset
      cases hfi : h.fetches[i]? with
      | none => rw [hfi] at hg; by_cases hji : j = i <;> simp [hji] at hg
      | some f =>
        rw [hfi] at hg
        have hfs := hset f hfi
        by_cases hji : j = i
        · simp only [hji, if_true, Option.map_eq_map, Option.map_some', Option.some.injEq] at hg
          rw [← hg]
        · simp only [hji, if_false, Option.map_eq_map, Option.map_some', Option.some.injEq] at hg
          rw [← hg]
          exact hfs
  · right
    exact ⟨hcl.trans hc, by omega⟩

/-- Two home slots of which the second is the first after a callback with the
active key that found no fetch in flight to abort: they differ in `coords`, in
the cleanup and in the aborted flag of a settled fetch, and no later event tells
them apart. -/
theorem homeRun_after_idle_callback (events : List HomeEvent) :
    ∀ (h : Home) (i : Nat) (co : Option Coords),
      ((h.cleanup = some i ∧ ∀ f, h.fetches.get? i = some f → f.settled = true) ∨
        (h.cleanup = none ∧ h.fetches.length ≤ i)) →
      (homeRun (withoutCleanup h i co) events).shown = (homeRun h events).shown ∧
      (homeRun (withoutCleanup h i co) events).fetches.length =
        (homeRun h events).fetches.length ∧
      (homeRun (withoutCleanup h i co) events).lastMyFetchKeyRef =
        (homeRun h events).lastMyFetchKeyRef := by
  induction events with
  | nil =>
    intro h i co _
    exact ⟨rfl, by simp [homeRun, withoutCleanup], rfl⟩
  | cons e events ih =>
    intro h i co hidle
    have hrun : ∀ x : Home, homeRun x (e :: events) = homeRun (homeStep x e) events :=
      fun _ => rfl
    rw [hrun, hrun]
    cases e with
    | coordsChange d =>
      have heq : homeStep (withoutCleanup h i co) (.coordsChange d) =
          homeStep h (.coordsChange d) := by
        simp only [homeStep, onCoordsChange, runCleanup, withoutCleanup]
        rcases hidle with ⟨hc, -⟩ | ⟨hc, hlen⟩
        · simp only [hc]
        · simp only [hc, modify_of_length_le _ i h.fetches hlen]
      rw [heq]
      exact ⟨rfl, rfl, rfl⟩
    | fetchSettled j fetched clock =>
      simp only [homeStep]
      rw [withoutCleanup_settled h i j co fetched clock hidle]
      exact ih _ i co (idle_after_settled h i j fetched clock hidle)

theorem onCoordsChange_eq_withoutCleanup (h : Home) (c : Coords)
    (hkey : h.lastMyFetchKeyRef = some (coordsKey c)) :
    onCoordsChange h c = withoutCleanup h (h.cleanup.getD h.fetches.length) (some c) := by
  have hk : (runCleanup h).lastMyFetchKeyRef = some (coordsKey c) := by
    rw [runCleanup_lastKey, hkey]
  simp only [onCoordsChange, homeEffect, hk, if_true]
  unfold runCleanup withoutCleanup
  cases hc : h.cleanup with
  | none =>
    simp only [Option.getD_none, modify_of_length_le _ _ h.fetches (Nat.le_refl _), hkey]
  | some i => simp only [Option.getD_some, hkey]

/-- C3, amended: a callback whose coordinates have the active key issues no fetch and
resets no displayed field, in every state of the home slot; the displayed
fields, the active key and the number of fetches are as they were. When the
request the pending cleanup names has settled, so that no fetch for the key is
in flight, the callback aborts no fetch in flight, and after every sequence of
later events the slot displays the same, has issued as many fetches and holds
the same key as if the callback had not occurred. -/
theorem home_redundant_callback (h : Home) (c : Coords)
    (hkey : h.lastMyFetchKeyRef = some (coordsKey c)) :
    (onCoordsChange h c).fetches.length = h.fetches.length ∧
    (onCoordsChange h c).shown = h.shown ∧
    (onCoordsChange h c).lastMyFetchKeyRef = h.lastMyFetchKeyRef ∧
    ((∀ i f, h.cleanup = some i → h.fetches.get? i = some f → f.settled = true) →
      (∀ j f, h.fetches.get? j = some f → f.settled = false →
        (onCoordsChange h c).fetches.get? j = some f) ∧
      ∀ events : List HomeEvent,
        (homeRun (onCoordsChange h c) events).shown = (homeRun h events).shown ∧
        (homeRun (onCoordsChange h c) events).fetches.length =
          (homeRun h events).fetches.length ∧
        (homeRun (onCoordsChange h c) events).lastMyFetchKeyRef =
          (homeRun h events).lastMyFetchKeyRef) := by
  obtain ⟨hshown, hlen, -, -⟩ := onCoordsChange_same_key h c hkey
  refine ⟨hlen, hshown, (onCoordsChange_lastKey h c).trans hkey.symm, ?_⟩
  intro hsettled
  have hidle : (h.cleanup = some (h.cleanup.getD h.fetches.length) ∧
        ∀ f, h.fetches.get? (h.cleanup.getD h.fetches.length) = some f → f.settled = true) ∨
      (h.cleanup = none ∧ h.fetches.length ≤ h.cleanup.getD h.fetches.length) := by
    cases hc : h.cleanup with
    | none => right; exact ⟨rfl, Nat.le_refl _⟩
    | some i => left; exact ⟨rfl, fun f hf => hsettled i f hc hf⟩
  rw [onCoordsChange_eq_withoutCleanup h c hkey]
  refine ⟨?_, fun events => homeRun_after_idle_callback events h _ (some c) hidle⟩
  intro j f hf hlive
  rw [withoutCleanup_get?, hf]
  have hne : h.cleanup.getD h.fetches.length ≠ j := by
    intro hij
    rcases hidle with ⟨-, hset⟩ | ⟨-, hle⟩
    · rw [hij] at hset
      rw [hset f hf] at hlive
      cases hlive
    · rw [hij] at hle
      have hnone : h.fetches.get? j = none := List.get?_eq_none.2 hle
      rw [hnone] at hf
      cases hf
  simp [hne]

/-- After (59.911, 10.757) and the response "Rain", 3 degrees at 09:05, the callback
(59.9114, 10.7569) leaves the card as it is, and a move to (60, 11) then issues
the second fetch as it would have without the callback. -/
theorem home_redundant_callback_witness :
    (homeRun Home.init [.coordsChange ⟨59.911, 10.757⟩,
      .fetchSettled 0 (weatherOk 3.4 61) ⟨0, 9, 5⟩,
      .coordsChange ⟨59.9114, 10.7569⟩]).shown = ("Rain", .num 3, some "09:05", none) ∧
    (homeRun Home.init [.coordsChange ⟨59.911, 10.757⟩,
      .fetchSettled 0 (weatherOk 3.4 61) ⟨0, 9, 5⟩,
      .coordsChange ⟨59.9114, 10.7569⟩, .coordsChange ⟨60, 11⟩]).fetches.length = 2 := by
  have h := home_redundant_callback
    (homeRun Home.init [.coordsChange ⟨59.911, 10.757⟩,
      .fetchSettled 0 (weatherOk 3.4 61) ⟨0, 9, 5⟩])
    ⟨59.9114, 10.7569⟩ (by decide!)
  have hsettled : ∀ i f,
      (homeRun Home.init [.coordsChange ⟨59.911, 10.757⟩,
        .fetchSettled 0 (weatherOk 3.4 61) ⟨0, 9, 5⟩]).cleanup = some i →
      (homeRun Home.init [.coordsChange ⟨59.911, 10.757⟩,
        .fetchSettled 0 (weatherOk 3.4 61) ⟨0, 9, 5⟩]).fetches.get? i = some f →
      f.settled = true := by
    intro i f hi hf
    have hc : (homeRun Home.init [.coordsChange ⟨59.911, 10.757⟩,
        .fetchSettled 0 (weatherOk 3.4 61) ⟨0, 9, 5⟩]).cleanup = some 0 := by decide!
    rw [hc] at hi
    cases hi
    have hg : (homeRun Home.init [.coordsChange ⟨59.911, 10.757⟩,
        .fetchSettled 0 (weatherOk 3.4 61) ⟨0, 9, 5⟩]).fetches.get? 0 =
        some { latitude := 59.911, longitude := 10.757, aborted := false, settled := true } := by
      decide!
    rw [hg] at hf
    cases hf
    rfl
  exact ⟨h.2.1.trans (by decide!),
    ((h.2.2.2 hsettled).2 [.coordsChange ⟨60, 11⟩]).2.1.trans (by decide!)⟩

end SkyScout
